import Mathlib

/-!
# rmf_fleet_adapter : `agv/Adapter.cpp`

A shallow embedding of the bootstrap, fleet registration, traffic-light
registration and lifecycle operations of `rmf_fleet_adapter::agv::Adapter`,
followed by theorems about them.

Conventions of the embedding.

* `std::function` values and raw/shared pointers that the source tests for
  null are `Option`s; a callable is identified by a number.
* Calls into collaborators whose code is outside `Adapter.cpp` (logger, fleet
  handle setters, schedule writer, worker) are recorded, in call order, in
  traces held by `AdapterState`.
* Clock readings and durations (`std::chrono` nanosecond counts, signed 64-bit)
  are `Int`. The deadline of `wait_for` is the machine sum, wrapped to 64 bits
  (`wrap_int64`). The deadline of bootstrap is kept as the exact sum: a sum that
  overflows puts the machine deadline in the past, and the run then returns
  null without polling, an outcome that every bootstrap theorem below allows.
* `std::unordered_set<std::string>` is a duplicate-free `List String`;
  insertion is `List.insert`, whose "was it new" answer is `x ∉ s`.
-/

namespace rmf_fleet_adapter
namespace agv

/-! ## Navigation graph events (the `Graph::Lane::Executor` interface) -/

/-- The eight lane event kinds dispatched by `Graph::Lane::Executor`. Only
`Dock::dock_name()` is read by `Adapter.cpp`. -/
inductive Event where
  | DoorOpen
  | DoorClose
  | LiftSessionBegin
  | LiftDoorOpen
  | LiftSessionEnd
  | LiftMove
  | Wait
  | Dock (dock_name : String)
  deriving DecidableEq, Repr

/-- A lane: `entry().event()` and `exit().event()` are pointers that may be
null. -/
structure Lane where
  entry : Option Event
  exit : Option Event
  deriving DecidableEq, Repr

/-- The part of `rmf_traffic::agv::Graph` that `Adapter.cpp` reads:
`get_lane(i)` for `i < num_lanes()`. -/
structure Graph where
  lanes : List Lane
  deriving DecidableEq, Repr

/-- The visitor state of `DuplicateDockFinder`. -/
structure DuplicateDockFinder where
  visited_docks : List String := []
  duplicate_docks : List String := []
  deriving DecidableEq, Repr

/-- The overloads `DuplicateDockFinder::execute`: every kind but `Dock` is a
no-op; for a dock, `visited_docks.insert(name).second` is false exactly when
the name was already visited, and then the name goes to `duplicate_docks`. -/
def DuplicateDockFinder.execute (finder : DuplicateDockFinder) : Event → DuplicateDockFinder
  | .DoorOpen => finder
  | .DoorClose => finder
  | .LiftSessionBegin => finder
  | .LiftDoorOpen => finder
  | .LiftSessionEnd => finder
  | .LiftMove => finder
  | .Wait => finder
  | .Dock dock_name =>
    if dock_name ∈ finder.visited_docks then
      { finder with duplicate_docks := finder.duplicate_docks.insert dock_name }
    else
      { finder with visited_docks := finder.visited_docks.insert dock_name }

/-- The statement `if (event) event->execute(finder);`. -/
def DuplicateDockFinder.visit (finder : DuplicateDockFinder) : Option Event → DuplicateDockFinder
  | none => finder
  | some event => finder.execute event

/-- One iteration of the lane loop of `add_easy_fleet`: entry, then exit. -/
def DuplicateDockFinder.visit_lane (finder : DuplicateDockFinder) (lane : Lane) :
    DuplicateDockFinder :=
  (finder.visit lane.entry).visit lane.exit

/-- The lane loop of `add_easy_fleet` (lines 260-270), started on a fresh
finder. -/
def find_duplicate_docks (graph : Graph) : DuplicateDockFinder :=
  graph.lanes.foldl DuplicateDockFinder.visit_lane {}

/-! ### Reference notions used to state what the finder computes -/

/-- The name carried by an event pointer, when it points to a dock event. -/
def dock_name_of : Option Event → List String
  | some (.Dock dock_name) => [dock_name]
  | _ => []

/-- The names of all dock events of a list of lanes, one entry per event; the
entry and the exit event of a lane are separate events. -/
def lanes_dock_names (lanes : List Lane) : List String :=
  lanes.flatMap fun lane => dock_name_of lane.entry ++ dock_name_of lane.exit

/-- The names of all dock events of a graph. -/
def graph_dock_names (graph : Graph) : List String :=
  lanes_dock_names graph.lanes


/-- Feeding a list of dock names to the finder, one `Dock` event each. -/
def DuplicateDockFinder.feed (finder : DuplicateDockFinder) (names : List String) :
    DuplicateDockFinder :=
  names.foldl (fun f n => f.execute (.Dock n)) finder

/-- What a finder holds after it has been fed the dock names `names`: both sets
are duplicate-free, `visited_docks` holds the names that occur and
`duplicate_docks` the names that occur at least twice. -/
structure DuplicateDockFinder.Tracks (finder : DuplicateDockFinder) (names : List String) :
    Prop where
  visited_iff : ∀ x, x ∈ finder.visited_docks ↔ x ∈ names
  duplicate_iff : ∀ x, x ∈ finder.duplicate_docks ↔ 2 ≤ names.count x
  visited_nodup : finder.visited_docks.Nodup
  duplicate_nodup : finder.duplicate_docks.Nodup

/-! ## Values owned by collaborators -/

/-- A steady-clock reading, in nanoseconds. -/
abbrev Time := Int

/-- A `std::chrono` duration, in nanoseconds. -/
abbrev Duration := Int

/-- An object or value whose type is defined outside `Adapter.cpp` and which
the file only passes along, identified by a number. -/
abbrev Ref := Nat

/-- A non-empty `std::function`, identified by a number; a `std::function`
argument is an `Option Callable`, `none` being the empty function. -/
abbrev Callable := Nat

/-- The parts of `rmf_traffic::agv::VehicleTraits`. -/
structure VehicleTraits where
  linear : Ref
  rotational : Ref
  profile : Ref
  deriving DecidableEq, Repr

/-- The result of `MirrorManager::view()` is determined by the manager. -/
structure MirrorManager where
  view : Ref
  deriving DecidableEq, Repr

/-- The class `WorkerWrapper`: it holds the rxcpp worker it schedules on. -/
structure WorkerWrapper where
  worker : Ref
  deriving DecidableEq, Repr

/-- The arguments `rmf_traffic_ros2::schedule::Negotiation` is constructed
from (line 160-163). -/
structure Negotiation where
  node : Ref
  view : Ref
  worker : WorkerWrapper
  deriving DecidableEq, Repr

/-- The arguments `FleetUpdateHandle::Implementation::make` receives in
`add_fleet`, the planner being given by its configuration
`(navigation_graph, traits)`. -/
structure FleetUpdateHandle where
  fleet_name : String
  planner_graph : Graph
  planner_traits : VehicleTraits
  node : Ref
  worker : Ref
  schedule_writer : Ref
  view : Ref
  negotiation : Negotiation
  server_uri : Option String
  deriving DecidableEq, Repr

/-- The arguments of `FleetUpdateHandle::set_task_planner_params`. -/
structure TaskPlannerParams where
  battery_system : Ref
  motion_sink : Ref
  ambient_sink : Ref
  tool_sink : Ref
  recharge_threshold : Ref
  recharge_soc : Ref
  account_for_battery_drain : Bool
  finishing_request : Ref
  deriving DecidableEq, Repr

/-- The fleet handle setters that `add_easy_fleet` calls, with their
arguments. -/
inductive FleetCall where
  | set_task_planner_params (params : TaskPlannerParams)
  | set_retreat_to_charger_interval (interval : Option Duration)
  | consider_delivery_requests (pickup dropoff : Option Callable)
  | consider_patrol_requests (consider : Option Callable)
  | consider_cleaning_requests (consider : Option Callable)
  | add_performable_action (action : String) (consider : Option Callable)
  | default_maximum_delay (delay : Option Duration)
  | fleet_state_topic_publish_period (period : Option Duration)
  | set_lift_emergency_level (lift level : String)
  deriving DecidableEq, Repr

/-- The log statements of `Adapter.cpp`, each with its format arguments. -/
inductive Message where
  | graph_missing (fleet_name : String)
  | vehicle_traits_missing (fleet_name : String)
  | duplicate_lanes (fleet_name : String) (count : Nat)
  | duplicate_dock (dock : String)
  | dock_names_must_be_unique (fleet_name : String)
  | planner_params_failed (fleet_name : String)
  | performs_delivery (fleet_name : String)
  | performs_patrol (fleet_name : String)
  | performs_cleaning (fleet_name : String)
  | finished_configuring (fleet_name : String)
  | no_handle_callback (robot_name fleet_name : String)
  | no_pause_callback (robot_name fleet_name : String)
  | no_resume_callback (robot_name fleet_name : String)
  | added_traffic_light (participant_name : String) (participant_id : Nat)
  deriving DecidableEq, Repr

/-- The logging macro used: `RCLCPP_ERROR`, `RCLCPP_WARN` or `RCLCPP_INFO`. -/
inductive Severity where
  | error
  | warn
  | info
  deriving DecidableEq, Repr

/-- One emitted log statement. -/
structure LogEntry where
  severity : Severity
  message : Message
  deriving DecidableEq, Repr

/-- The responsiveness class of a participant description. -/
inductive Rx where
  | Invalid
  | Unresponsive
  | Responsive
  deriving DecidableEq, Repr

/-- The constructor arguments of `ParticipantDescription` (line 464-468). -/
structure ParticipantDescription where
  name : String
  owner : String
  responsiveness : Rx
  profile : Ref
  deriving DecidableEq, Repr

/-- A participant as handed to the creation-completion handler. -/
structure Participant where
  id : Nat
  description : ParticipantDescription
  deriving DecidableEq, Repr

/-- The arguments of `EasyTrafficLight::Implementation::make` (line 498-508):
a handle exists only as the result of that call. -/
structure EasyTrafficLight where
  pause_callback : Option Callable
  resume_callback : Option Callable
  blocker_callback : Option Callable
  schedule : Ref
  worker : Ref
  node : Ref
  traits : VehicleTraits
  participant : Participant
  blockade_writer : Ref
  negotiation : Negotiation
  deriving DecidableEq, Repr

/-- The captures of the completion lambda handed to `async_make_participant`
(line 472-483), initialised in the order written. -/
structure ParticipantReady where
  traits : VehicleTraits
  pause_callback : Option Callable
  resume_callback : Option Callable
  handle_callback : Option Callable
  blocker_callback : Option Callable
  blockade_writer : Ref
  schedule : Ref
  worker : Ref
  handle_cb : Option Callable
  negotiation : Negotiation
  node : Ref
  deriving DecidableEq, Repr

/-- One call `schedule_writer->async_make_participant(description, ready)`. -/
structure ParticipantRequest where
  description : ParticipantDescription
  ready : ParticipantReady
  deriving DecidableEq, Repr

/-- The captures of the job lambda handed to `worker.schedule` (line
510-515). -/
structure HandleDelivery where
  handle_callback : Option Callable
  easy_handle : EasyTrafficLight
  deriving DecidableEq, Repr

/-! ## The adapter object -/

/-- The data members of `Adapter::Implementation` that the operations below
use. `schedule_writer` is the `ParticipantFactoryRos2` wrapping the writer. -/
structure Adapter.Implementation where
  worker : Ref
  node : Ref
  negotiation : Negotiation
  schedule_writer : Ref
  blockade_writer : Ref
  mirror_manager : MirrorManager
  fleets : List FleetUpdateHandle := []
  deriving DecidableEq, Repr

/-- An `Adapter` together with what its collaborators have been asked to do so
far, each trace in call order: the node's logger, the setters applied to fleet
handles (a handle is named by its index in `fleets`), the schedule writer's
`async_make_participant` requests, the jobs handed to the worker, the
invocations of handle callbacks, and the number of attempts to invoke an empty
`std::function`. -/
structure Adapter where
  pimpl : Adapter.Implementation
  log : List LogEntry := []
  fleet_calls : List (Nat × FleetCall) := []
  participant_requests : List ParticipantRequest := []
  worker_jobs : List HandleDelivery := []
  handle_callback_calls : List (Callable × EasyTrafficLight) := []
  bad_function_calls : Nat := 0
  deriving DecidableEq, Repr

/-- Emitting one log statement. -/
def Adapter.report (adapter : Adapter) (severity : Severity) (message : Message) : Adapter :=
  { adapter with log := adapter.log ++ [⟨severity, message⟩] }

/-- Calling one setter on the fleet handle `fleet_handle`. -/
def Adapter.apply (adapter : Adapter) (fleet_handle : Nat) (call : FleetCall) : Adapter :=
  { adapter with fleet_calls := adapter.fleet_calls ++ [(fleet_handle, call)] }

/-! ## Bootstrap: `Adapter::Implementation::make` and `Adapter::make` -/

/-- How a call ended: by an exception, by returning a value, or not within the
recorded part of the run (the record of what the environment did ran out while
the call was still looping or blocked). -/
inductive Outcome (α : Type) where
  | threw
  | returned (value : α)
  | unfinished
  deriving DecidableEq, Repr

/-- What one evaluation of the polling loop of `Implementation::make` reads:
`rclcpp::ok(context)` and `steady_clock::now()` in the loop condition, then
`writer->ready()` and `mirror_future.wait_for(0s) == ready` in the body;
`mirror_manager` is what `mirror_future.get()` yields once the future is
ready. -/
structure Poll where
  ok : Bool
  now : Time
  writer_ready : Bool
  mirror_ready : Bool
  mirror_manager : MirrorManager
  deriving DecidableEq, Repr

/-- What `Implementation::make` reads from its environment: `rclcpp::ok` at
entry, the objects it creates through collaborators, the value
`get_parameter_or_default_time(*node, "discovery_timeout", 60.0)`, the clock
reading from which `stop_time` is computed, and the successive evaluations of
the polling loop. -/
structure BootEnv where
  ok_at_entry : Bool
  worker : Ref
  node : Ref
  writer : Ref
  blockade_writer : Ref
  parameter_timeout : Duration
  start : Time
  polls : List Poll
  deriving DecidableEq, Repr

/-- A bootstrap run: its outcome, the number of loop bodies entered (calls of
`executor.spin_some()`), and the negotiation coordinators constructed, each
with the index of the loop evaluation that constructed it. -/
structure BootRun (α : Type) where
  result : Outcome (Option α)
  spins : Nat
  negotiations : List (Nat × Negotiation)

/-- `ParticipantFactoryRos2(writer)`: the factory is determined by the
writer. -/
def ParticipantFactoryRos2 (writer : Ref) : Ref := writer

/-- The negotiation coordinator constructed at line 160-163 from the node, the
view of the mirror manager and a `WorkerWrapper` around the worker. -/
def Adapter.Implementation.negotiation_for (env : BootEnv) (mirror_manager : MirrorManager) :
    Negotiation :=
  { node := env.node, view := mirror_manager.view, worker := ⟨env.worker⟩ }

/-- The `Implementation` constructed at line 165-170; its constructor makes the
blockade writer from the node. -/
def Adapter.Implementation.construct (env : BootEnv) (negotiation : Negotiation)
    (mirror_manager : MirrorManager) : Adapter.Implementation :=
  { worker := env.worker
    node := env.node
    negotiation := negotiation
    schedule_writer := ParticipantFactoryRos2 env.writer
    blockade_writer := env.blockade_writer
    mirror_manager := mirror_manager }

/-- The `while` loop of `Implementation::make` (line 147-172) followed by
`return nullptr`; `k` counts the loop evaluations done so far. -/
def Adapter.Implementation.poll_loop (env : BootEnv) (stop_time : Time) :
    List Poll → Nat → BootRun Adapter.Implementation
  | [], k => { result := .unfinished, spins := k, negotiations := [] }
  | p :: rest, k =>
    if p.ok && decide (p.now < stop_time) then
      let ready := true
      let ready := ready && p.writer_ready
      let ready := ready && p.mirror_ready
      if ready then
        let mirror_manager := p.mirror_manager
        let negotiation := Adapter.Implementation.negotiation_for env mirror_manager
        { result :=
            .returned (some (Adapter.Implementation.construct env negotiation mirror_manager)),
          spins := k + 1,
          negotiations := [(k, negotiation)] }
      else
        Adapter.Implementation.poll_loop env stop_time rest (k + 1)
    else
      { result := .returned none, spins := k, negotiations := [] }

/-- The deadline `stop_time` of `Implementation::make` (line 126-140). -/
def Adapter.Implementation.stop_time (discovery_timeout : Option Duration) (env : BootEnv) :
    Time :=
  let discovery_timeout :=
    match discovery_timeout with
    | none => env.parameter_timeout
    | some timeout => timeout
  env.start + discovery_timeout

/-- `Adapter::Implementation::make`. -/
def Adapter.Implementation.make (discovery_timeout : Option Duration) (env : BootEnv) :
    BootRun Adapter.Implementation :=
  if !env.ok_at_entry then
    { result := .threw, spins := 0, negotiations := [] }
  else
    Adapter.Implementation.poll_loop env
      (Adapter.Implementation.stop_time discovery_timeout env) env.polls 0

/-- `Adapter::make`: a non-null `pimpl` becomes a new adapter, a null one a
null result; an exception passes through. -/
def Adapter.make (discovery_timeout : Option Duration) (env : BootEnv) : BootRun Adapter :=
  let run := Adapter.Implementation.make discovery_timeout env
  { result :=
      match run.result with
      | .threw => .threw
      | .unfinished => .unfinished
      | .returned none => .returned none
      | .returned (some pimpl) => .returned (some { pimpl := pimpl }),
    spins := run.spins,
    negotiations := run.negotiations }

/-! ## Fleet registration: `Adapter::add_fleet` and `Adapter::add_easy_fleet` -/

/-- The accessors of `EasyFullControl::FleetConfiguration` read by
`add_easy_fleet`. The two consideration tables and the lift table are given as
the sequence of entries in iteration order. -/
structure FleetConfiguration where
  fleet_name : String
  graph : Option Graph
  vehicle_traits : Option VehicleTraits
  server_uri : Option String
  planner_params : TaskPlannerParams
  retreat_to_charger_interval : Option Duration
  task_consideration : List (String × Option Callable)
  action_consideration : List (String × Option Callable)
  max_delay : Option Duration
  update_interval : Option Duration
  transformations_to_robot_coordinates : Option Ref
  lift_emergency_levels : List (String × String)
  skip_rotation_commands : Bool
  strict_lanes : Bool
  default_responsive_wait : Bool
  default_max_merge_waypoint_distance : Ref
  default_max_merge_lane_distance : Ref
  default_min_lane_length : Ref
  using_parking_reservation_system : Bool
  deriving DecidableEq, Repr

/-- The arguments of `EasyFullControl::Implementation::make` (line 378-387). -/
structure EasyFullControl where
  fleet_handle : Nat
  skip_rotation_commands : Bool
  tf_dict : Option Ref
  strict_lanes : Bool
  default_responsive_wait : Bool
  default_max_merge_waypoint_distance : Ref
  default_max_merge_lane_distance : Ref
  default_min_lane_length : Ref
  using_parking_reservation_system : Bool
  deriving DecidableEq, Repr

/-- `Adapter::add_fleet`: build the fleet handle, `fleets.push_back` it and
return it (its index in `fleets`). -/
def Adapter.add_fleet (adapter : Adapter) (fleet_name : String) (traits : VehicleTraits)
    (navigation_graph : Graph) (server_uri : Option String) : Nat × Adapter :=
  let fleet : FleetUpdateHandle :=
    { fleet_name := fleet_name
      planner_graph := navigation_graph
      planner_traits := traits
      node := adapter.pimpl.node
      worker := adapter.pimpl.worker
      schedule_writer := adapter.pimpl.schedule_writer
      view := adapter.pimpl.mirror_manager.view
      negotiation := adapter.pimpl.negotiation
      server_uri := server_uri }
  (adapter.pimpl.fleets.length,
    { adapter with pimpl := { adapter.pimpl with fleets := adapter.pimpl.fleets ++ [fleet] } })

/-- The body of the loop over `config.task_consideration()` (line 323-351):
three independent `if` statements on the entry `[task, consider]`. -/
def Adapter.consider_task (fleet_name : String) (fleet_handle : Nat) (adapter : Adapter)
    (entry : String × Option Callable) : Adapter :=
  let task := entry.1
  let consider := entry.2
  let adapter :=
    if task == "delivery" && consider.isSome then
      (adapter.apply fleet_handle (.consider_delivery_requests consider consider)).report
        .info (.performs_delivery fleet_name)
    else adapter
  let adapter :=
    if task == "patrol" && consider.isSome then
      (adapter.apply fleet_handle (.consider_patrol_requests consider)).report
        .info (.performs_patrol fleet_name)
    else adapter
  let adapter :=
    if task == "clean" && consider.isSome then
      (adapter.apply fleet_handle (.consider_cleaning_requests consider)).report
        .info (.performs_cleaning fleet_name)
    else adapter
  adapter

/-- The configuration of a freshly added fleet handle (line 301-376);
`planner_params_ok` is what `set_task_planner_params` returned. -/
def Adapter.configure_fleet (adapter : Adapter) (config : FleetConfiguration)
    (fleet_handle : Nat) (planner_params_ok : Bool) : Adapter :=
  let adapter := adapter.apply fleet_handle (.set_task_planner_params config.planner_params)
  let adapter :=
    if !planner_params_ok then
      adapter.report .warn (.planner_params_failed config.fleet_name)
    else adapter
  let adapter :=
    adapter.apply fleet_handle
      (.set_retreat_to_charger_interval config.retreat_to_charger_interval)
  let adapter :=
    config.task_consideration.foldl (Adapter.consider_task config.fleet_name fleet_handle)
      adapter
  let adapter :=
    config.action_consideration.foldl
      (fun a entry => a.apply fleet_handle (.add_performable_action entry.1 entry.2)) adapter
  let adapter := adapter.apply fleet_handle (.default_maximum_delay config.max_delay)
  let adapter :=
    adapter.apply fleet_handle (.fleet_state_topic_publish_period config.update_interval)
  let adapter := adapter.report .info (.finished_configuring config.fleet_name)
  let adapter :=
    config.lift_emergency_levels.foldl
      (fun a entry => a.apply fleet_handle (.set_lift_emergency_level entry.1 entry.2)) adapter
  adapter

/-- `Adapter::add_easy_fleet`. The result is the returned pointer (`none` for
`nullptr`) and the adapter afterwards. -/
def Adapter.add_easy_fleet (adapter : Adapter) (config : FleetConfiguration)
    (planner_params_ok : Bool) : Option EasyFullControl × Adapter :=
  match config.graph with
  | none => (none, adapter.report .error (.graph_missing config.fleet_name))
  | some graph =>
    match config.vehicle_traits with
    | none => (none, adapter.report .error (.vehicle_traits_missing config.fleet_name))
    | some traits =>
      let finder := find_duplicate_docks graph
      if !finder.duplicate_docks.isEmpty then
        let adapter :=
          adapter.report .error
            (.duplicate_lanes config.fleet_name finder.duplicate_docks.length)
        let adapter :=
          finder.duplicate_docks.foldl (fun a dock => a.report .error (.duplicate_dock dock))
            adapter
        (none, adapter.report .error (.dock_names_must_be_unique config.fleet_name))
      else
        let added := adapter.add_fleet config.fleet_name traits graph config.server_uri
        let fleet_handle := added.1
        let adapter := added.2.configure_fleet config fleet_handle planner_params_ok
        let tf_dict := config.transformations_to_robot_coordinates
        (some
          { fleet_handle := fleet_handle
            skip_rotation_commands := config.skip_rotation_commands
            tf_dict := tf_dict
            strict_lanes := config.strict_lanes
            default_responsive_wait := config.default_responsive_wait
            default_max_merge_waypoint_distance := config.default_max_merge_waypoint_distance
            default_max_merge_lane_distance := config.default_max_merge_lane_distance
            default_min_lane_length := config.default_min_lane_length
            using_parking_reservation_system := config.using_parking_reservation_system },
          adapter)

/-- The setter calls that one entry of the task-consideration table gives rise
to in `consider_task`. -/
def task_calls (fleet_handle : Nat) (entry : String × Option Callable) :
    List (Nat × FleetCall) :=
  (if entry.1 == "delivery" && entry.2.isSome then
      [(fleet_handle, FleetCall.consider_delivery_requests entry.2 entry.2)] else []) ++
    (if entry.1 == "patrol" && entry.2.isSome then
      [(fleet_handle, FleetCall.consider_patrol_requests entry.2)] else []) ++
    (if entry.1 == "clean" && entry.2.isSome then
      [(fleet_handle, FleetCall.consider_cleaning_requests entry.2)] else [])

/-- The setter calls that `configure_fleet` makes, in order. -/
def configuration_calls (config : FleetConfiguration) (fleet_handle : Nat) :
    List (Nat × FleetCall) :=
  [(fleet_handle, FleetCall.set_task_planner_params config.planner_params),
    (fleet_handle, FleetCall.set_retreat_to_charger_interval
      config.retreat_to_charger_interval)] ++
    config.task_consideration.flatMap (task_calls fleet_handle) ++
    config.action_consideration.map
      (fun entry => (fleet_handle, FleetCall.add_performable_action entry.1 entry.2)) ++
    [(fleet_handle, FleetCall.default_maximum_delay config.max_delay),
      (fleet_handle, FleetCall.fleet_state_topic_publish_period config.update_interval)] ++
    config.lift_emergency_levels.map
      (fun entry => (fleet_handle, FleetCall.set_lift_emergency_level entry.1 entry.2))

/-- The setter calls made since the adapter was in state `before`. -/
def Adapter.fleet_calls_since (after before : Adapter) : List (Nat × FleetCall) :=
  after.fleet_calls.drop before.fleet_calls.length

/-- The log statements emitted since the adapter was in state `before`. -/
def Adapter.log_since (after before : Adapter) : List LogEntry :=
  after.log.drop before.log.length

/-- Whether a setter call is `consider_delivery_requests`. -/
def FleetCall.is_delivery : FleetCall → Bool
  | .consider_delivery_requests _ _ => true
  | _ => false

/-- Whether a setter call is `consider_patrol_requests`. -/
def FleetCall.is_patrol : FleetCall → Bool
  | .consider_patrol_requests _ => true
  | _ => false

/-- Whether a setter call is `consider_cleaning_requests`. -/
def FleetCall.is_cleaning : FleetCall → Bool
  | .consider_cleaning_requests _ => true
  | _ => false

/-- Whether a task-consideration table supplies a non-null predicate under the
name `task`. -/
def supplies (table : List (String × Option Callable)) (task : String) : Bool :=
  table.any fun entry => entry.1 == task && entry.2.isSome

/-! ## Traffic-light registration: `Adapter::add_easy_traffic_light` -/

/-- The arguments of `Adapter::add_easy_traffic_light`. -/
structure TrafficLightArgs where
  handle_callback : Option Callable
  fleet_name : String
  robot_name : String
  traits : VehicleTraits
  pause_callback : Option Callable
  resume_callback : Option Callable
  blocker_callback : Option Callable
  deriving DecidableEq, Repr

/-- The job lambda of line 510-515, run by the worker:
`handle_callback(std::move(easy_handle))`. Invoking an empty `std::function`
throws `std::bad_function_call`. -/
def HandleDelivery.run (job : HandleDelivery) (adapter : Adapter) : Adapter :=
  match job.handle_callback with
  | some callback =>
    { adapter with
      handle_callback_calls := adapter.handle_callback_calls ++ [(callback, job.easy_handle)] }
  | none => { adapter with bad_function_calls := adapter.bad_function_calls + 1 }

/-- The handle that the completion lambda constructs from the created
participant: the call `EasyTrafficLight::Implementation::make` of line
498-508. -/
def ParticipantReady.easy_handle (ready : ParticipantReady) (participant : Participant) :
    EasyTrafficLight :=
  { pause_callback := ready.pause_callback
    resume_callback := ready.resume_callback
    blocker_callback := ready.blocker_callback
    schedule := ready.schedule
    worker := ready.worker
    node := ready.node
    traits := ready.traits
    participant := participant
    blockade_writer := ready.blockade_writer
    negotiation := ready.negotiation }

/-- The completion lambda of line 484-516, run by the schedule writer with the
created participant: (under the initialisation mutex, which a sequential run
always finds free) log, construct the handle, then hand one job to the
worker. The lambda is not `mutable`, so the `std::move`s of its captures
copy. -/
def ParticipantReady.run (ready : ParticipantReady) (participant : Participant)
    (adapter : Adapter) : Adapter :=
  let adapter :=
    adapter.report .info (.added_traffic_light participant.description.name participant.id)
  let easy_handle := ready.easy_handle participant
  { adapter with
    worker_jobs := adapter.worker_jobs ++
      [{ handle_callback := ready.handle_callback, easy_handle := easy_handle }] }

/-- `Adapter::add_easy_traffic_light`. In the capture list `handle_callback` is
moved from twice, first into the capture `handle_callback` and then into the
capture `handle_cb`, which the lambda never uses. The captures are taken to be
initialised in the order written (what compilers do, the language leaving the
order open), so `handle_callback` holds the function and `handle_cb` the
emptied one. -/
def Adapter.add_easy_traffic_light (adapter : Adapter) (args : TrafficLightArgs) : Adapter :=
  if args.handle_callback.isNone then
    adapter.report .error (.no_handle_callback args.robot_name args.fleet_name)
  else if args.pause_callback.isNone then
    adapter.report .error (.no_pause_callback args.robot_name args.fleet_name)
  else if args.resume_callback.isNone then
    adapter.report .error (.no_resume_callback args.robot_name args.fleet_name)
  else
    let description : ParticipantDescription :=
      { name := args.robot_name
        owner := args.fleet_name
        responsiveness := .Responsive
        profile := args.traits.profile }
    let ready : ParticipantReady :=
      { traits := args.traits
        pause_callback := args.pause_callback
        resume_callback := args.resume_callback
        handle_callback := args.handle_callback
        blocker_callback := args.blocker_callback
        blockade_writer := adapter.pimpl.blockade_writer
        schedule := adapter.pimpl.mirror_manager.view
        worker := adapter.pimpl.worker
        handle_cb := none
        negotiation := adapter.pimpl.negotiation
        node := adapter.pimpl.node }
    { adapter with
      participant_requests := adapter.participant_requests ++
        [{ description := description, ready := ready }] }

/-- Whether a log statement is one of the three "argument missing" errors of
`add_easy_traffic_light`, and then which argument of `args` it names and that
this argument is indeed null. -/
def names_missing_argument (args : TrafficLightArgs) (entry : LogEntry) : Prop :=
  entry.severity = .error ∧
    ((entry.message = .no_handle_callback args.robot_name args.fleet_name ∧
        args.handle_callback = none) ∨
      (entry.message = .no_pause_callback args.robot_name args.fleet_name ∧
        args.pause_callback = none) ∨
      (entry.message = .no_resume_callback args.robot_name args.fleet_name ∧
        args.resume_callback = none))

/-! ## Lifecycle: `Adapter::wait` and `Adapter::wait_for` -/

/-- The outcome of a wait: it returned after `wakeups` returns of the inner
blocking wait (`0`: at the predicate evaluation on entry, without blocking), or
the thread is still blocked when the recorded wake-ups run out. -/
inductive WaitOutcome where
  | returned (wakeups : Nat)
  | blocked
  deriving DecidableEq, Repr

/-- One more wake-up happened before the outcome. -/
def WaitOutcome.later : WaitOutcome → WaitOutcome
  | .returned wakeups => .returned (wakeups + 1)
  | .blocked => .blocked

/-- `std::condition_variable::wait(lock, pred)`, that is
`while (!pred()) wait(lock);`. `seen` is what the predicate reads on entry,
`wakeups` what it reads after each return of `wait(lock)`. -/
def cv_wait {α : Type} (pred : α → Bool) : α → List α → WaitOutcome
  | seen, [] => if pred seen then .returned 0 else .blocked
  | seen, next :: rest => if pred seen then .returned 0 else (cv_wait pred next rest).later

/-- `std::condition_variable::wait_until(lock, abs_time, pred)`, that is
`while (!pred()) if (wait_until(lock, abs_time) == cv_status::timeout) return pred();`
followed by `return true;`. A wake-up is the clock reading at which the inner
`wait_until(lock, abs_time)` returned, which decides its status (`timeout`
exactly when `abs_time` has been reached), and what the predicate reads
next. -/
def cv_wait_until {α : Type} (abs_time : Time) (pred : α → Bool) :
    α → List (Time × α) → WaitOutcome
  | seen, [] => if pred seen then .returned 0 else .blocked
  | seen, wakeup :: rest =>
    if pred seen then .returned 0
    else if abs_time ≤ wakeup.1 then .returned 1
    else (cv_wait_until abs_time pred wakeup.2 rest).later

/-- What the predicate of `wait_for` reads: `node->still_spinning()` and
`steady_clock::now()`. -/
structure Observation where
  still_spinning : Bool
  now : Time
  deriving DecidableEq, Repr

/-- `Adapter::wait`: the predicate is `!node->still_spinning()`; an
observation is the value of `still_spinning()`. -/
def Adapter.wait (entry : Bool) (wakeups : List Bool) : WaitOutcome :=
  cv_wait (fun still_spinning => !still_spinning) entry wakeups

/-- The predicate of `Adapter::wait_for` (line 565-566). -/
def Adapter.wait_for_pred (wait_until_time : Time) (seen : Observation) : Bool :=
  !seen.still_spinning && decide (seen.now < wait_until_time)

/-- A sum of signed 64-bit counts as the machine computes it: reduced modulo
`2^64` into the range from `-2^63` up to `2^63 - 1`. -/
def wrap_int64 (x : Int) : Int :=
  (x + 9223372036854775808) % 18446744073709551616 - 9223372036854775808

/-- Whether a number is a signed 64-bit count. -/
def is_int64 (x : Int) : Prop :=
  -9223372036854775808 ≤ x ∧ x < 9223372036854775808

/-- The deadline of `Adapter::wait_for` (line 559):
`steady_clock::now() + max_wait`, a 64-bit addition; `call_time` is the clock
reading. -/
def Adapter.wait_until_time (max_wait : Duration) (call_time : Time) : Time :=
  wrap_int64 (call_time + max_wait)

/-- `Adapter::wait_for`: `call_time` is the clock reading of line 559. -/
def Adapter.wait_for (max_wait : Duration) (call_time : Time) (entry : Observation)
    (wakeups : List (Time × Observation)) : WaitOutcome :=
  let wait_until_time := Adapter.wait_until_time max_wait call_time
  cv_wait_until wait_until_time (Adapter.wait_for_pred wait_until_time) entry wakeups

/-- The observation after `k` wake-ups: the one on entry for `k = 0`. -/
def observation_at {α : Type} (entry : α) (wakeups : List α) : Nat → Option α
  | 0 => some entry
  | k + 1 => wakeups[k]?

/-- Whether `cv_wait_until` stops after `k` wake-ups: the predicate holds at the
observation reached there, or the `k`-th wake-up (for `k > 0`) is the inner
wait timing out. -/
def cv_wait_until_stops {α : Type} (abs_time : Time) (pred : α → Bool) (entry : α)
    (wakeups : List (Time × α)) : Nat → Bool
  | 0 => pred entry
  | k + 1 =>
    match wakeups[k]? with
    | none => false
    | some wakeup => decide (abs_time ≤ wakeup.1) || pred wakeup.2

/-- Whether `wait_for`, called at `call_time`, stops after `k` wake-ups. -/
def Adapter.wait_for_stops (max_wait : Duration) (call_time : Time) (entry : Observation)
    (wakeups : List (Time × Observation)) (k : Nat) : Bool :=
  cv_wait_until_stops (Adapter.wait_until_time max_wait call_time)
    (Adapter.wait_for_pred (Adapter.wait_until_time max_wait call_time)) entry wakeups k

/-! ## Concrete inputs -/

/-- An adapter as `Adapter::make` returns it, with empty traces. -/
def sample_adapter : Adapter :=
  { pimpl :=
      { worker := 1
        node := 2
        negotiation := { node := 2, view := 5, worker := ⟨1⟩ }
        schedule_writer := 3
        blockade_writer := 4
        mirror_manager := ⟨5⟩ } }

/-- Vehicle traits with profile `9`. -/
def sample_traits : VehicleTraits := { linear := 7, rotational := 8, profile := 9 }

/-- A call of `add_easy_traffic_light` for robot `r1` of fleet `f1` with the
given four callbacks. -/
def sample_args (handle pause resume blocker : Option Callable) : TrafficLightArgs :=
  { handle_callback := handle
    fleet_name := "f1"
    robot_name := "r1"
    traits := sample_traits
    pause_callback := pause
    resume_callback := resume
    blocker_callback := blocker }

/-- A fleet configuration for fleet `f1` with the given graph, traits and
task-consideration table, and nothing else configured. -/
def sample_config (graph : Option Graph) (traits : Option VehicleTraits)
    (task_consideration : List (String × Option Callable)) : FleetConfiguration :=
  { fleet_name := "f1"
    graph := graph
    vehicle_traits := traits
    server_uri := none
    planner_params :=
      { battery_system := 0, motion_sink := 0, ambient_sink := 0, tool_sink := 0,
        recharge_threshold := 0, recharge_soc := 0, account_for_battery_drain := true,
        finishing_request := 0 }
    retreat_to_charger_interval := none
    task_consideration := task_consideration
    action_consideration := []
    max_delay := none
    update_interval := none
    transformations_to_robot_coordinates := none
    lift_emergency_levels := []
    skip_rotation_commands := false
    strict_lanes := false
    default_responsive_wait := false
    default_max_merge_waypoint_distance := 0
    default_max_merge_lane_distance := 0
    default_min_lane_length := 0
    using_parking_reservation_system := false }

/-- A graph of one lane that docks at `A` on entry and again on exit. -/
def graph_docking_twice : Graph := ⟨[⟨some (.Dock "A"), some (.Dock "A")⟩]⟩

/-- A graph of one lane without events. -/
def graph_without_docks : Graph := ⟨[⟨none, none⟩]⟩

/-- A bootstrap environment with the given state of the context at entry,
clock reading `100` at line 140, and the given loop evaluations. -/
def sample_env (ok_at_entry : Bool) (polls : List Poll) : BootEnv :=
  { ok_at_entry := ok_at_entry
    worker := 1
    node := 2
    writer := 3
    blockade_writer := 4
    parameter_timeout := 60
    start := 100
    polls := polls }

/-- One loop evaluation with an active context at clock reading `now`. -/
def sample_poll (now : Time) (writer_ready mirror_ready : Bool) : Poll :=
  { ok := true, now := now, writer_ready := writer_ready, mirror_ready := mirror_ready,
    mirror_manager := ⟨5⟩ }

/-! # Theorems -/

/-! ## The duplicate-dock pass -/

theorem DuplicateDockFinder.tracks_init : ({} : DuplicateDockFinder).Tracks [] := by
  constructor <;> simp

theorem DuplicateDockFinder.tracks_execute {finder : DuplicateDockFinder} {names : List String}
    (h : finder.Tracks names) (n : String) :
    (finder.execute (.Dock n)).Tracks (names ++ [n]) := by
  obtain ⟨hv, hd, hvn, hdn⟩ := h
  by_cases hn : n ∈ finder.visited_docks
  · simp only [DuplicateDockFinder.execute, hn, if_true]
    constructor
    · intro x
      simp only [hv, List.mem_append, List.mem_singleton]
      constructor
      · intro h; exact Or.inl h
      · rintro (h | rfl)
        · exact h
        · exact (hv _).mp hn
    · intro x
      simp only [List.mem_insert_iff, hd, List.count_append, List.count_singleton]
      by_cases hx : x = n
      · subst hx; simp; exact (hv _).mp hn
      · have : (n == x) = false := by simpa using fun h => hx h.symm
        simp [hx, this]
    · exact hvn
    · exact hdn.insert
  · have hc : names.count n = 0 := List.count_eq_zero.mpr (fun h => hn ((hv n).mpr h))
    simp only [DuplicateDockFinder.execute, hn, if_false]
    constructor
    · intro x
      simp only [List.mem_insert_iff, hv, List.mem_append, List.mem_singleton]
      tauto
    · intro x
      simp only [hd, List.count_append, List.count_singleton]
      by_cases hx : x = n
      · subst hx; simp [hc]
      · have : (n == x) = false := by simpa using fun h => hx h.symm
        simp [this]
    · exact hvn.insert
    · exact hdn

theorem DuplicateDockFinder.tracks_feed (names : List String) :
    ∀ {finder : DuplicateDockFinder} {seen : List String}, finder.Tracks seen →
      (finder.feed names).Tracks (seen ++ names) := by
  induction names with
  | nil => intro f s h; simpa [DuplicateDockFinder.feed] using h
  | cons n rest ih =>
    intro f s h
    have := ih (tracks_execute h n)
    simpa [DuplicateDockFinder.feed, List.append_assoc] using this

theorem DuplicateDockFinder.visit_eq_feed (finder : DuplicateDockFinder) (e : Option Event) :
    finder.visit e = finder.feed (dock_name_of e) := by
  cases e with
  | none => rfl
  | some ev => cases ev <;> rfl

theorem DuplicateDockFinder.feed_append (finder : DuplicateDockFinder) (a b : List String) :
    finder.feed (a ++ b) = (finder.feed a).feed b := by
  simp [DuplicateDockFinder.feed, List.foldl_append]

theorem DuplicateDockFinder.foldl_visit_lane (lanes : List Lane) :
    ∀ finder : DuplicateDockFinder,
      lanes.foldl DuplicateDockFinder.visit_lane finder = finder.feed (lanes_dock_names lanes) := by
  induction lanes with
  | nil => intro f; rfl
  | cons lane rest ih =>
    intro f
    simp only [List.foldl_cons, ih, lanes_dock_names, List.flatMap_cons, feed_append,
      DuplicateDockFinder.visit_lane, visit_eq_feed]

theorem find_duplicate_docks_tracks (graph : Graph) :
    (find_duplicate_docks graph).Tracks (graph_dock_names graph) := by
  have := DuplicateDockFinder.tracks_feed (graph_dock_names graph) DuplicateDockFinder.tracks_init
  simpa [find_duplicate_docks, DuplicateDockFinder.foldl_visit_lane, graph_dock_names] using this

theorem eq_nil_of_no_member {l : List String} (h : ∀ x, x ∉ l) : l = [] :=
  List.eq_nil_iff_forall_not_mem.mpr h

theorem eq_singleton_of_nodup {l : List String} {a : String} (hn : l.Nodup)
    (h : ∀ x, x ∈ l ↔ x = a) : l = [a] := by
  match l, hn, h with
  | [], _, h => exact absurd ((h a).mpr rfl) (List.not_mem_nil a)
  | [b], _, h =>
    have : b = a := (h b).mp (List.mem_singleton_self b)
    rw [this]
  | b :: c :: rest, hn, h =>
    have hb : b = a := (h b).mp (List.mem_cons_self b _)
    have hc : c = a := (h c).mp (List.mem_cons_of_mem _ (List.mem_cons_self c _))
    have hbc : b ≠ c := by
      intro e
      have := (List.nodup_cons.mp hn).1
      exact this (e ▸ List.mem_cons_self c _)
    exact absurd (hb.trans hc.symm) hbc

/-- C1. For every graph, the duplicate set computed by the lane loop of
`add_easy_fleet` is a set (no repetition) holding exactly the names carried by
two or more dock events of the graph, entry and exit of a lane counting
separately; an absent event and every event that is not a dock leave the
finder as it is. In particular a graph whose dock events carry `a, a, b` (in
any order, `a ≠ b`) gives exactly `{a}`, and one whose dock events carry three
distinct names gives the empty set. -/
theorem duplicate_docks_exact (graph : Graph) :
    (∀ name, name ∈ (find_duplicate_docks graph).duplicate_docks ↔
        2 ≤ (graph_dock_names graph).count name) ∧
      (find_duplicate_docks graph).duplicate_docks.Nodup ∧
      (∀ (finder : DuplicateDockFinder) (event : Option Event),
        (∀ name, event ≠ some (.Dock name)) → finder.visit event = finder) ∧
      (∀ a b : String, a ≠ b → (graph_dock_names graph).Perm [a, a, b] →
        (find_duplicate_docks graph).duplicate_docks = [a]) ∧
      (∀ a b c : String, a ≠ b → a ≠ c → b ≠ c → (graph_dock_names graph).Perm [a, b, c] →
        (find_duplicate_docks graph).duplicate_docks = []) := by
  have ht := find_duplicate_docks_tracks graph
  refine ⟨ht.duplicate_iff, ht.duplicate_nodup, ?_, ?_, ?_⟩
  · intro finder event h
    cases event with
    | none => rfl
    | some ev =>
      cases ev <;> first | rfl | exact absurd rfl (h _)
  · intro a b hab hp
    apply eq_singleton_of_nodup ht.duplicate_nodup
    intro x
    rw [ht.duplicate_iff, hp.count_eq]
    by_cases hxa : x = a
    · subst hxa; simp
    · have h1 : (a == x) = false := by simpa using fun h => hxa h.symm
      by_cases hxb : x = b
      · subst hxb; simp [List.count_cons, h1, hxa]
      · have h2 : (b == x) = false := by simpa using fun h => hxb h.symm
        simp [List.count_cons, h1, h2, hxa]
  · intro a b c hab hac hbc hp
    apply eq_nil_of_no_member
    intro x
    rw [ht.duplicate_iff, hp.count_eq]
    simp only [List.count_cons, List.count_nil, beq_iff_eq]
    by_cases h1 : a = x <;> by_cases h2 : b = x <;> by_cases h3 : c = x <;>
      simp [h1, h2, h3] <;> first | exact absurd (h1.trans h2.symm) hab | exact absurd (h1.trans h3.symm) hac | exact absurd (h2.trans h3.symm) hbc

/-- C1, at a graph of three lanes carrying `A`, `A` and `B`. -/
theorem duplicate_docks_exact_witness :
    "A" ≠ "B" ∧
      (graph_dock_names
        ⟨[⟨some (.Dock "A"), none⟩, ⟨none, some (.Dock "A")⟩,
          ⟨some (.Dock "B"), some .Wait⟩]⟩).Perm ["A", "A", "B"] ∧
      (find_duplicate_docks
        ⟨[⟨some (.Dock "A"), none⟩, ⟨none, some (.Dock "A")⟩,
          ⟨some (.Dock "B"), some .Wait⟩]⟩).duplicate_docks = ["A"] :=
  ⟨by decide, by decide,
    (duplicate_docks_exact
      ⟨[⟨some (.Dock "A"), none⟩, ⟨none, some (.Dock "A")⟩,
        ⟨some (.Dock "B"), some .Wait⟩]⟩).2.2.2.1 "A" "B" (by decide) (by decide)⟩

/-! ## Traffic-light registration -/

theorem add_easy_traffic_light_refused (adapter : Adapter) (args : TrafficLightArgs)
    (h : args.handle_callback = none ∨ args.pause_callback = none ∨
      args.resume_callback = none) :
    ∃ entry, names_missing_argument args entry ∧
      adapter.add_easy_traffic_light args = { adapter with log := adapter.log ++ [entry] } := by
  unfold Adapter.add_easy_traffic_light
  cases hh : args.handle_callback with
  | none =>
    exact ⟨⟨.error, .no_handle_callback args.robot_name args.fleet_name⟩,
      ⟨rfl, Or.inl ⟨rfl, hh⟩⟩, by simp [Adapter.report]⟩
  | some hc =>
    cases hp : args.pause_callback with
    | none =>
      exact ⟨⟨.error, .no_pause_callback args.robot_name args.fleet_name⟩,
        ⟨rfl, Or.inr (Or.inl ⟨rfl, hp⟩)⟩, by simp [Adapter.report]⟩
    | some pc =>
      cases hr : args.resume_callback with
      | none =>
        exact ⟨⟨.error, .no_resume_callback args.robot_name args.fleet_name⟩,
          ⟨rfl, Or.inr (Or.inr ⟨rfl, hr⟩)⟩, by simp [Adapter.report]⟩
      | some rc =>
        rw [hh, hp, hr] at h
        simp at h

/-- C2, as amended. For every call of `add_easy_traffic_light` in which at
least one of the three checked function arguments (handle callback, pause
callback, resume callback) is null, the call is refused at once:
`async_make_participant` is not invoked, nothing is handed to the worker, no
callback is invoked, and the only effect is one error that names an argument
which is indeed missing. -/
theorem add_easy_traffic_light_refuses_missing (adapter : Adapter) (args : TrafficLightArgs)
    (h : args.handle_callback = none ∨ args.pause_callback = none ∨
      args.resume_callback = none) :
    (adapter.add_easy_traffic_light args).participant_requests =
        adapter.participant_requests ∧
      (adapter.add_easy_traffic_light args).worker_jobs = adapter.worker_jobs ∧
      (adapter.add_easy_traffic_light args).handle_callback_calls =
        adapter.handle_callback_calls ∧
      ∃ entry, names_missing_argument args entry ∧
        adapter.add_easy_traffic_light args =
          { adapter with log := adapter.log ++ [entry] } := by
  obtain ⟨entry, hn, he⟩ := add_easy_traffic_light_refused adapter args h
  refine ⟨?_, ?_, ?_, entry, hn, he⟩ <;> rw [he]

/-- C2 as amended, at a call whose resume callback is null. -/
theorem add_easy_traffic_light_refuses_missing_witness :
    ((sample_args (some 1) (some 2) none (some 4)).handle_callback = none ∨
        (sample_args (some 1) (some 2) none (some 4)).pause_callback = none ∨
        (sample_args (some 1) (some 2) none (some 4)).resume_callback = none) ∧
      (sample_adapter.add_easy_traffic_light
        (sample_args (some 1) (some 2) none (some 4))).participant_requests =
        sample_adapter.participant_requests :=
  ⟨Or.inr (Or.inr rfl),
    (add_easy_traffic_light_refuses_missing sample_adapter
      (sample_args (some 1) (some 2) none (some 4)) (Or.inr (Or.inr rfl))).1⟩

/-- C2 as stated fails: with a null blocker callback and the other three
callbacks present, `async_make_participant` is invoked and no error is
reported; so it is not true that every call with one of the four function
arguments null is refused. -/
theorem null_blocker_callback_accepted :
    (sample_args (some 1) (some 2) (some 3) none).blocker_callback = none ∧
      (sample_adapter.add_easy_traffic_light
        (sample_args (some 1) (some 2) (some 3) none)).participant_requests.length = 1 ∧
      (sample_adapter.add_easy_traffic_light (sample_args (some 1) (some 2) (some 3) none)).log
        = [] ∧
      ¬ ∀ (adapter : Adapter) (args : TrafficLightArgs),
        (args.handle_callback = none ∨ args.pause_callback = none ∨
          args.resume_callback = none ∨ args.blocker_callback = none) →
        (adapter.add_easy_traffic_light args).participant_requests =
            adapter.participant_requests ∧
          ∃ entry ∈ (adapter.add_easy_traffic_light args).log_since adapter,
            entry.severity = .error := by
  refine ⟨rfl, by decide, by decide, ?_⟩
  intro h
  have := (h sample_adapter (sample_args (some 1) (some 2) (some 3) none)
    (Or.inr (Or.inr (Or.inr rfl)))).1
  revert this
  decide

/-- C3. For every call of `add_easy_traffic_light` whose pause callback is
null, whatever the other arguments: `async_make_participant` is not invoked, no
job is handed to the worker, and exactly one error is reported, which names an
argument that is missing; when the handle callback is present, that error is
the one naming `pause_callback`. -/
theorem null_pause_callback_refused (adapter : Adapter) (args : TrafficLightArgs)
    (h : args.pause_callback = none) :
    (adapter.add_easy_traffic_light args).participant_requests =
        adapter.participant_requests ∧
      (adapter.add_easy_traffic_light args).worker_jobs = adapter.worker_jobs ∧
      (∃ entry, names_missing_argument args entry ∧
        (adapter.add_easy_traffic_light args).log = adapter.log ++ [entry]) ∧
      (args.handle_callback ≠ none →
        (adapter.add_easy_traffic_light args).log =
          adapter.log ++ [⟨.error, .no_pause_callback args.robot_name args.fleet_name⟩]) := by
  obtain ⟨entry, hn, he⟩ := add_easy_traffic_light_refused adapter args (Or.inr (Or.inl h))
  refine ⟨by rw [he], by rw [he], ⟨entry, hn, by rw [he]⟩, ?_⟩
  intro hh
  unfold Adapter.add_easy_traffic_light
  cases hc : args.handle_callback with
  | none => exact absurd hc hh
  | some c => simp [h, Adapter.report]

/-- C3, at a call whose pause callback alone is null. -/
theorem null_pause_callback_refused_witness :
    (sample_args (some 1) none (some 3) (some 4)).pause_callback = none ∧
      (sample_adapter.add_easy_traffic_light
        (sample_args (some 1) none (some 3) (some 4))).log =
        [⟨.error, .no_pause_callback "r1" "f1"⟩] :=
  ⟨rfl,
    (null_pause_callback_refused sample_adapter (sample_args (some 1) none (some 3) (some 4))
      rfl).2.2.2 (by decide)⟩

/-- C7. For every accepted call of `add_easy_traffic_light` (handle, pause and
resume callbacks present): exactly one `async_make_participant` request is
issued, for the description built from the arguments, and the call itself
invokes no handle callback and hands nothing to the worker. Whenever that
request's completion handler runs with a created participant, it invokes no
handle callback itself and hands exactly one job to the worker, holding the
handle constructed from that participant; and whenever that job runs, it
invokes the caller's handle callback exactly once, with that handle. So over
the call, the completion and the job, the handle callback is invoked once, and
only by the job. -/
theorem handle_callback_once_after_construction (adapter : Adapter) (args : TrafficLightArgs)
    (handle pause resume : Callable) (hh : args.handle_callback = some handle)
    (hp : args.pause_callback = some pause) (hr : args.resume_callback = some resume) :
    ∃ request : ParticipantRequest,
      (adapter.add_easy_traffic_light args).participant_requests =
          adapter.participant_requests ++ [request] ∧
        request.description =
          ⟨args.robot_name, args.fleet_name, .Responsive, args.traits.profile⟩ ∧
        (adapter.add_easy_traffic_light args).handle_callback_calls =
          adapter.handle_callback_calls ∧
        (adapter.add_easy_traffic_light args).worker_jobs = adapter.worker_jobs ∧
        ∀ (participant : Participant) (before : Adapter),
          (request.ready.run participant before).handle_callback_calls =
              before.handle_callback_calls ∧
            (request.ready.run participant before).participant_requests =
              before.participant_requests ∧
            ∃ job : HandleDelivery,
              (request.ready.run participant before).worker_jobs =
                  before.worker_jobs ++ [job] ∧
                job.easy_handle = request.ready.easy_handle participant ∧
                job.easy_handle.participant = participant ∧
                job.easy_handle.pause_callback = some pause ∧
                job.easy_handle.resume_callback = some resume ∧
                job.easy_handle.blocker_callback = args.blocker_callback ∧
                ∀ running : Adapter,
                  (job.run running).handle_callback_calls =
                      running.handle_callback_calls ++ [(handle, job.easy_handle)] ∧
                    (job.run running).worker_jobs = running.worker_jobs ∧
                    (job.run running).bad_function_calls = running.bad_function_calls := by
  refine ⟨
    { description := ⟨args.robot_name, args.fleet_name, .Responsive, args.traits.profile⟩
      ready :=
        { traits := args.traits
          pause_callback := args.pause_callback
          resume_callback := args.resume_callback
          handle_callback := args.handle_callback
          blocker_callback := args.blocker_callback
          blockade_writer := adapter.pimpl.blockade_writer
          schedule := adapter.pimpl.mirror_manager.view
          worker := adapter.pimpl.worker
          handle_cb := none
          negotiation := adapter.pimpl.negotiation
          node := adapter.pimpl.node } }, ?_, rfl, ?_, ?_, ?_⟩
  · simp [Adapter.add_easy_traffic_light, hh, hp, hr]
  · simp [Adapter.add_easy_traffic_light, hh, hp, hr]
  · simp [Adapter.add_easy_traffic_light, hh, hp, hr]
  · intro participant before
    refine ⟨rfl, rfl, _, rfl, rfl, rfl, ?_, ?_, rfl, ?_⟩
    · exact hp
    · exact hr
    · intro running
      simp [HandleDelivery.run, hh]

/-- C7, at an accepted call (null blocker callback) on an adapter with empty
traces: exactly one request is issued. -/
theorem handle_callback_once_after_construction_witness :
    (sample_args (some 1) (some 2) (some 3) none).handle_callback = some 1 ∧
      (sample_args (some 1) (some 2) (some 3) none).pause_callback = some 2 ∧
      (sample_args (some 1) (some 2) (some 3) none).resume_callback = some 3 ∧
      ∃ request : ParticipantRequest,
        (sample_adapter.add_easy_traffic_light
          (sample_args (some 1) (some 2) (some 3) none)).participant_requests =
          sample_adapter.participant_requests ++ [request] :=
  ⟨rfl, rfl, rfl,
    (handle_callback_once_after_construction sample_adapter
      (sample_args (some 1) (some 2) (some 3) none) 1 2 3 rfl rfl rfl).imp
      fun _ h => h.1⟩

/-! ## Fleet registration -/

theorem Adapter.foldl_report {β : Type} (severity : Severity) (f : β → Message) (l : List β) :
    ∀ adapter : Adapter,
      l.foldl (fun a x => a.report severity (f x)) adapter =
        { adapter with log := adapter.log ++ l.map fun x => ⟨severity, f x⟩ } := by
  induction l with
  | nil => intro a; simp
  | cons x rest ih =>
    intro a
    simp only [List.foldl_cons, ih]
    simp [Adapter.report]

theorem Adapter.foldl_apply {β : Type} (fleet_handle : Nat) (f : β → FleetCall) (l : List β) :
    ∀ adapter : Adapter,
      l.foldl (fun a x => a.apply fleet_handle (f x)) adapter =
        { adapter with
          fleet_calls := adapter.fleet_calls ++ l.map fun x => (fleet_handle, f x) } := by
  induction l with
  | nil => intro a; simp
  | cons x rest ih =>
    intro a
    simp only [List.foldl_cons, ih]
    simp [Adapter.apply]

theorem Adapter.consider_task_effect (fleet_name : String) (fleet_handle : Nat)
    (adapter : Adapter) (entry : String × Option Callable) :
    (Adapter.consider_task fleet_name fleet_handle adapter entry).fleet_calls =
        adapter.fleet_calls ++ task_calls fleet_handle entry ∧
      (Adapter.consider_task fleet_name fleet_handle adapter entry).pimpl = adapter.pimpl := by
  unfold Adapter.consider_task task_calls
  by_cases h1 : (entry.1 == "delivery" && entry.2.isSome) = true <;>
    by_cases h2 : (entry.1 == "patrol" && entry.2.isSome) = true <;>
    by_cases h3 : (entry.1 == "clean" && entry.2.isSome) = true <;>
    simp only [h1, h2, h3, if_true, if_false, Bool.false_eq_true] <;>
    simp [Adapter.apply, Adapter.report]

theorem Adapter.foldl_consider_task (fleet_name : String) (fleet_handle : Nat)
    (table : List (String × Option Callable)) :
    ∀ adapter : Adapter,
      (table.foldl (Adapter.consider_task fleet_name fleet_handle) adapter).fleet_calls =
          adapter.fleet_calls ++ table.flatMap (task_calls fleet_handle) ∧
        (table.foldl (Adapter.consider_task fleet_name fleet_handle) adapter).pimpl =
          adapter.pimpl := by
  induction table with
  | nil => intro a; simp
  | cons entry rest ih =>
    intro a
    have h := Adapter.consider_task_effect fleet_name fleet_handle a entry
    simp [ih, h.1, h.2, List.append_assoc]

theorem Adapter.configure_fleet_effect (adapter : Adapter) (config : FleetConfiguration)
    (fleet_handle : Nat) (planner_params_ok : Bool) :
    (adapter.configure_fleet config fleet_handle planner_params_ok).fleet_calls =
        adapter.fleet_calls ++ configuration_calls config fleet_handle ∧
      (adapter.configure_fleet config fleet_handle planner_params_ok).pimpl = adapter.pimpl := by
  unfold Adapter.configure_fleet configuration_calls
  simp only [Adapter.foldl_apply]
  constructor
  · simp only [Adapter.report, Adapter.apply, (Adapter.foldl_consider_task _ _ _ _).1]
    cases planner_params_ok <;> simp [List.append_assoc]
  · simp only [Adapter.report, Adapter.apply, (Adapter.foldl_consider_task _ _ _ _).2]
    cases planner_params_ok <;> simp

theorem Adapter.add_easy_fleet_accepted (adapter : Adapter) (config : FleetConfiguration)
    (planner_params_ok : Bool) (graph : Graph) (traits : VehicleTraits)
    (hg : config.graph = some graph) (ht : config.vehicle_traits = some traits)
    (hd : (find_duplicate_docks graph).duplicate_docks = []) :
    ((adapter.add_easy_fleet config planner_params_ok).2.fleet_calls_since adapter) =
      configuration_calls config adapter.pimpl.fleets.length := by
  simp only [Adapter.add_easy_fleet, hg, ht, hd, Adapter.fleet_calls_since, List.isEmpty_nil,
    Bool.not_true, Bool.false_eq_true, if_false, (Adapter.configure_fleet_effect _ _ _ _).1,
    Adapter.add_fleet]
  simp

theorem Adapter.add_easy_fleet_duplicates (adapter : Adapter) (config : FleetConfiguration)
    (planner_params_ok : Bool) (graph : Graph) (traits : VehicleTraits)
    (hg : config.graph = some graph) (ht : config.vehicle_traits = some traits)
    (hd : (find_duplicate_docks graph).duplicate_docks ≠ []) :
    adapter.add_easy_fleet config planner_params_ok =
      (none,
        { adapter with
          log := adapter.log ++
            (⟨.error, .duplicate_lanes config.fleet_name
                (find_duplicate_docks graph).duplicate_docks.length⟩ ::
              (find_duplicate_docks graph).duplicate_docks.map
                (fun dock => ⟨.error, .duplicate_dock dock⟩)) ++
            [⟨.error, .dock_names_must_be_unique config.fleet_name⟩] }) := by
  have hne : (find_duplicate_docks graph).duplicate_docks.isEmpty = false := by
    cases h : (find_duplicate_docks graph).duplicate_docks with
    | nil => exact absurd h hd
    | cons _ _ => rfl
  simp only [Adapter.add_easy_fleet, hg, ht, hne, Bool.not_false, if_true,
    Adapter.foldl_report]
  simp [Adapter.report]

/-- C4, as amended. For every fleet configuration whose graph is missing,
whose vehicle traits are missing, or whose graph has a non-empty duplicate-dock
set, `add_easy_fleet` returns null without calling `add_fleet`: the adapter
object, and so its list of registered fleets, is unchanged, no setter is
applied to any fleet handle, and an error is reported. When graph and vehicle
traits are both present and the duplicate set is non-empty, every name of the
duplicate set is reported. -/
theorem add_easy_fleet_refuses (adapter : Adapter) (config : FleetConfiguration)
    (planner_params_ok : Bool)
    (h : config.graph = none ∨ config.vehicle_traits = none ∨
      ∃ graph, config.graph = some graph ∧
        (find_duplicate_docks graph).duplicate_docks ≠ []) :
    (adapter.add_easy_fleet config planner_params_ok).1 = none ∧
      (adapter.add_easy_fleet config planner_params_ok).2.pimpl = adapter.pimpl ∧
      (adapter.add_easy_fleet config planner_params_ok).2.pimpl.fleets =
        adapter.pimpl.fleets ∧
      (adapter.add_easy_fleet config planner_params_ok).2.fleet_calls = adapter.fleet_calls ∧
      (∃ entry ∈ (adapter.add_easy_fleet config planner_params_ok).2.log_since adapter,
        entry.severity = .error) ∧
      (∀ graph traits, config.graph = some graph → config.vehicle_traits = some traits →
        ∀ name ∈ (find_duplicate_docks graph).duplicate_docks,
          (⟨.error, .duplicate_dock name⟩ : LogEntry) ∈
            (adapter.add_easy_fleet config planner_params_ok).2.log_since adapter) := by
  cases hg : config.graph with
  | none =>
    simp [Adapter.add_easy_fleet, hg, Adapter.report, Adapter.log_since]
  | some graph =>
    cases ht : config.vehicle_traits with
    | none =>
      simp [Adapter.add_easy_fleet, hg, ht, Adapter.report, Adapter.log_since]
    | some traits =>
      have hd : (find_duplicate_docks graph).duplicate_docks ≠ [] := by
        rcases h with h | h | ⟨g, hgg, hd⟩
        · rw [hg] at h; cases h
        · rw [ht] at h; cases h
        · rw [hg] at hgg
          cases hgg
          exact hd
      rw [Adapter.add_easy_fleet_duplicates adapter config planner_params_ok graph traits hg ht
        hd]
      refine ⟨rfl, rfl, rfl, rfl, ?_, ?_⟩
      · exact ⟨⟨.error, .dock_names_must_be_unique config.fleet_name⟩,
          by simp [Adapter.log_since], rfl⟩
      · intro g t hgg htt name hname
        cases hgg
        simp only [Adapter.log_since, List.append_assoc, List.drop_left, List.cons_append,
          List.mem_cons, List.mem_append, List.mem_map, List.mem_singleton]
        exact Or.inr (Or.inl ⟨name, hname, rfl⟩)

/-- C4 as amended, at a configuration whose graph docks twice at `A`: the
registration is refused and `A` is reported. -/
theorem add_easy_fleet_refuses_witness :
    ((sample_config (some graph_docking_twice) (some sample_traits) []).graph = none ∨
        (sample_config (some graph_docking_twice) (some sample_traits) []).vehicle_traits =
          none ∨
        ∃ graph,
          (sample_config (some graph_docking_twice) (some sample_traits) []).graph =
              some graph ∧
            (find_duplicate_docks graph).duplicate_docks ≠ []) ∧
      (sample_adapter.add_easy_fleet
        (sample_config (some graph_docking_twice) (some sample_traits) []) true).1 = none :=
  ⟨Or.inr (Or.inr ⟨graph_docking_twice, rfl, by decide⟩),
    (add_easy_fleet_refuses sample_adapter
      (sample_config (some graph_docking_twice) (some sample_traits) []) true
      (Or.inr (Or.inr ⟨graph_docking_twice, rfl, by decide⟩))).1⟩

/-- C4 as stated fails: for a configuration whose graph has the duplicate set
`{A}` but whose vehicle traits are missing, the registration is refused at the
traits check, before the duplicate-dock pass, and `A` is not reported. -/
theorem duplicates_unreported_when_traits_missing :
    (find_duplicate_docks graph_docking_twice).duplicate_docks = ["A"] ∧
      (sample_adapter.add_easy_fleet (sample_config (some graph_docking_twice) none [])
        true).2.log = [⟨.error, .vehicle_traits_missing "f1"⟩] ∧
      ¬ ∀ (adapter : Adapter) (config : FleetConfiguration) (planner_params_ok : Bool),
        (config.graph = none ∨ config.vehicle_traits = none ∨
          ∃ graph, config.graph = some graph ∧
            (find_duplicate_docks graph).duplicate_docks ≠ []) →
        (adapter.add_easy_fleet config planner_params_ok).1 = none ∧
          (adapter.add_easy_fleet config planner_params_ok).2.pimpl.fleets =
            adapter.pimpl.fleets ∧
          (adapter.add_easy_fleet config planner_params_ok).2.fleet_calls =
            adapter.fleet_calls ∧
          ∀ graph, config.graph = some graph →
            ∀ name ∈ (find_duplicate_docks graph).duplicate_docks,
              (⟨.error, .duplicate_dock name⟩ : LogEntry) ∈
                (adapter.add_easy_fleet config planner_params_ok).2.log_since adapter := by
  refine ⟨by decide, by decide, ?_⟩
  intro h
  have := (h sample_adapter (sample_config (some graph_docking_twice) none []) true
    (Or.inr (Or.inl rfl))).2.2.2 graph_docking_twice rfl "A" (by decide)
  revert this
  decide

theorem mem_task_calls_delivery (fleet_handle : Nat) (table : List (String × Option Callable))
    (handle : Nat) (pickup dropoff : Option Callable) :
    (handle, FleetCall.consider_delivery_requests pickup dropoff) ∈
        table.flatMap (task_calls fleet_handle) ↔
      handle = fleet_handle ∧ dropoff = pickup ∧ pickup.isSome = true ∧
        ("delivery", pickup) ∈ table := by
  simp only [List.mem_flatMap, task_calls, List.mem_append]
  constructor
  · rintro ⟨⟨task, consider⟩, hmem, h⟩
    rcases h with (h | h) | h
    · split at h
      · rename_i hc
        simp only [List.mem_singleton, Prod.mk.injEq, FleetCall.consider_delivery_requests.injEq]
          at h
        obtain ⟨rfl, rfl, rfl⟩ := h
        simp only [Bool.and_eq_true, beq_iff_eq] at hc
        obtain ⟨rfl, hs⟩ := hc
        exact ⟨rfl, rfl, hs, hmem⟩
      · cases h
    · split at h
      · simp at h
      · cases h
    · split at h
      · simp at h
      · cases h
  · rintro ⟨rfl, rfl, hs, hmem⟩
    exact ⟨_, hmem, Or.inl (Or.inl (by simp [hs]))⟩

theorem mem_task_calls_patrol (fleet_handle : Nat) (table : List (String × Option Callable))
    (handle : Nat) (consider : Option Callable) :
    (handle, FleetCall.consider_patrol_requests consider) ∈
        table.flatMap (task_calls fleet_handle) ↔
      handle = fleet_handle ∧ consider.isSome = true ∧ ("patrol", consider) ∈ table := by
  simp only [List.mem_flatMap, task_calls, List.mem_append]
  constructor
  · rintro ⟨⟨task, consider⟩, hmem, h⟩
    rcases h with (h | h) | h
    · split at h
      · simp at h
      · cases h
    · split at h
      · rename_i hc
        simp only [List.mem_singleton, Prod.mk.injEq, FleetCall.consider_patrol_requests.injEq]
          at h
        obtain ⟨rfl, rfl⟩ := h
        simp only [Bool.and_eq_true, beq_iff_eq] at hc
        obtain ⟨rfl, hs⟩ := hc
        exact ⟨rfl, hs, hmem⟩
      · cases h
    · split at h
      · simp at h
      · cases h
  · rintro ⟨rfl, hs, hmem⟩
    exact ⟨_, hmem, Or.inl (Or.inr (by simp [hs]))⟩

theorem mem_task_calls_cleaning (fleet_handle : Nat) (table : List (String × Option Callable))
    (handle : Nat) (consider : Option Callable) :
    (handle, FleetCall.consider_cleaning_requests consider) ∈
        table.flatMap (task_calls fleet_handle) ↔
      handle = fleet_handle ∧ consider.isSome = true ∧ ("clean", consider) ∈ table := by
  simp only [List.mem_flatMap, task_calls, List.mem_append]
  constructor
  · rintro ⟨⟨task, consider⟩, hmem, h⟩
    rcases h with (h | h) | h
    · split at h
      · simp at h
      · cases h
    · split at h
      · simp at h
      · cases h
    · split at h
      · rename_i hc
        simp only [List.mem_singleton, Prod.mk.injEq,
          FleetCall.consider_cleaning_requests.injEq] at h
        obtain ⟨rfl, rfl⟩ := h
        simp only [Bool.and_eq_true, beq_iff_eq] at hc
        obtain ⟨rfl, hs⟩ := hc
        exact ⟨rfl, hs, hmem⟩
      · cases h
  · rintro ⟨rfl, hs, hmem⟩
    exact ⟨_, hmem, Or.inr (by simp [hs])⟩

theorem supplies_iff (table : List (String × Option Callable)) (task : String) :
    supplies table task = true ↔ ∃ consider : Option Callable,
      consider.isSome = true ∧ (task, consider) ∈ table := by
  simp only [supplies, List.any_eq_true, Bool.and_eq_true, beq_iff_eq]
  constructor
  · rintro ⟨⟨t, c⟩, hmem, rfl, hs⟩
    exact ⟨c, hs, hmem⟩
  · rintro ⟨c, hs, hmem⟩
    exact ⟨(task, c), hmem, rfl, hs⟩

theorem mem_configuration_calls (config : FleetConfiguration) (fleet_handle : Nat)
    (entry : Nat × FleetCall)
    (h : entry.2.is_delivery = true ∨ entry.2.is_patrol = true ∨ entry.2.is_cleaning = true) :
    entry ∈ configuration_calls config fleet_handle ↔
      entry ∈ config.task_consideration.flatMap (task_calls fleet_handle) := by
  obtain ⟨handle, call⟩ := entry
  simp only [configuration_calls, List.mem_append, List.mem_cons, List.mem_map,
    List.mem_singleton, Prod.mk.injEq, List.not_mem_nil, or_false]
  constructor
  · rintro ((((h1 | h1) | h1) | h1) | h1)
    · rcases h1 with ⟨-, rfl⟩ | ⟨-, rfl⟩ <;> simp [FleetCall.is_delivery, FleetCall.is_patrol,
        FleetCall.is_cleaning] at h
    · exact h1
    · obtain ⟨_, _, -, rfl⟩ := h1
      simp [FleetCall.is_delivery, FleetCall.is_patrol, FleetCall.is_cleaning] at h
    · rcases h1 with ⟨-, rfl⟩ | ⟨-, rfl⟩ <;> simp [FleetCall.is_delivery, FleetCall.is_patrol,
        FleetCall.is_cleaning] at h
    · obtain ⟨_, _, -, rfl⟩ := h1
      simp [FleetCall.is_delivery, FleetCall.is_patrol, FleetCall.is_cleaning] at h
  · intro h1
    exact Or.inl (Or.inl (Or.inl (Or.inr h1)))

theorem configuration_calls_handle (config : FleetConfiguration) (fleet_handle : Nat) :
    ∀ entry ∈ configuration_calls config fleet_handle, entry.1 = fleet_handle := by
  intro entry h
  simp only [configuration_calls, List.mem_append, List.mem_cons, List.mem_map,
    List.mem_singleton, List.not_mem_nil, or_false, List.mem_flatMap, task_calls] at h
  rcases h with (((h | h) | h) | h) | h
  · rcases h with rfl | rfl <;> rfl
  · obtain ⟨e, -, h⟩ := h
    rcases h with (h | h) | h <;> split at h <;> simp at h <;> rw [h]
  · obtain ⟨_, -, rfl⟩ := h; rfl
  · rcases h with rfl | rfl <;> rfl
  · obtain ⟨_, -, rfl⟩ := h; rfl

/-- C8, as amended. Whenever `add_easy_fleet` registers the fleet (graph and
traits present, no duplicate dock), every setter it applies is applied to the
new fleet handle, and for each of the task types delivery, patrol and cleaning
independently, the setter (`consider_delivery_requests`,
`consider_patrol_requests`, `consider_cleaning_requests`) is applied if and
only if the task-consideration table supplies a non-null predicate under the
name `delivery`, `patrol`, `clean` respectively, and then with that predicate;
an entry with a null predicate enables nothing, and an entry under one name
enables no other task type. -/
theorem task_setters_follow_table (adapter : Adapter) (config : FleetConfiguration)
    (planner_params_ok : Bool) (graph : Graph) (traits : VehicleTraits)
    (hg : config.graph = some graph) (ht : config.vehicle_traits = some traits)
    (hd : (find_duplicate_docks graph).duplicate_docks = []) :
    (∀ entry ∈ (adapter.add_easy_fleet config planner_params_ok).2.fleet_calls_since adapter,
        entry.1 = adapter.pimpl.fleets.length) ∧
      (((adapter.add_easy_fleet config planner_params_ok).2.fleet_calls_since adapter).any
          (fun entry => entry.2.is_delivery) = supplies config.task_consideration "delivery") ∧
      (((adapter.add_easy_fleet config planner_params_ok).2.fleet_calls_since adapter).any
          (fun entry => entry.2.is_patrol) = supplies config.task_consideration "patrol") ∧
      (((adapter.add_easy_fleet config planner_params_ok).2.fleet_calls_since adapter).any
          (fun entry => entry.2.is_cleaning) = supplies config.task_consideration "clean") ∧
      (∀ handle pickup dropoff,
        (handle, FleetCall.consider_delivery_requests pickup dropoff) ∈
            (adapter.add_easy_fleet config planner_params_ok).2.fleet_calls_since adapter ↔
          handle = adapter.pimpl.fleets.length ∧ dropoff = pickup ∧ pickup.isSome = true ∧
            ("delivery", pickup) ∈ config.task_consideration) ∧
      (∀ handle consider,
        (handle, FleetCall.consider_patrol_requests consider) ∈
            (adapter.add_easy_fleet config planner_params_ok).2.fleet_calls_since adapter ↔
          handle = adapter.pimpl.fleets.length ∧ consider.isSome = true ∧
            ("patrol", consider) ∈ config.task_consideration) ∧
      (∀ handle consider,
        (handle, FleetCall.consider_cleaning_requests consider) ∈
            (adapter.add_easy_fleet config planner_params_ok).2.fleet_calls_since adapter ↔
          handle = adapter.pimpl.fleets.length ∧ consider.isSome = true ∧
            ("clean", consider) ∈ config.task_consideration) := by
  rw [Adapter.add_easy_fleet_accepted adapter config planner_params_ok graph traits hg ht hd]
  have hdel : ∀ handle pickup dropoff,
      (handle, FleetCall.consider_delivery_requests pickup dropoff) ∈
          configuration_calls config adapter.pimpl.fleets.length ↔
        handle = adapter.pimpl.fleets.length ∧ dropoff = pickup ∧ pickup.isSome = true ∧
          ("delivery", pickup) ∈ config.task_consideration := by
    intro handle pickup dropoff
    rw [mem_configuration_calls _ _ (handle, FleetCall.consider_delivery_requests pickup dropoff)
      (Or.inl rfl), mem_task_calls_delivery]
  have hpat : ∀ handle consider,
      (handle, FleetCall.consider_patrol_requests consider) ∈
          configuration_calls config adapter.pimpl.fleets.length ↔
        handle = adapter.pimpl.fleets.length ∧ consider.isSome = true ∧
          ("patrol", consider) ∈ config.task_consideration := by
    intro handle consider
    rw [mem_configuration_calls _ _ (handle, FleetCall.consider_patrol_requests consider)
      (Or.inr (Or.inl rfl)), mem_task_calls_patrol]
  have hcl : ∀ handle consider,
      (handle, FleetCall.consider_cleaning_requests consider) ∈
          configuration_calls config adapter.pimpl.fleets.length ↔
        handle = adapter.pimpl.fleets.length ∧ consider.isSome = true ∧
          ("clean", consider) ∈ config.task_consideration := by
    intro handle consider
    rw [mem_configuration_calls _ _ (handle, FleetCall.consider_cleaning_requests consider)
      (Or.inr (Or.inr rfl)), mem_task_calls_cleaning]
  refine ⟨configuration_calls_handle _ _, ?_, ?_, ?_, hdel, hpat, hcl⟩
  · rw [Bool.eq_iff_iff, supplies_iff, List.any_eq_true]
    constructor
    · rintro ⟨⟨handle, call⟩, hmem, hc⟩
      cases call <;> simp [FleetCall.is_delivery] at hc
      rename_i pickup dropoff
      obtain ⟨-, -, hs, hm⟩ := (hdel handle pickup dropoff).mp hmem
      exact ⟨pickup, hs, hm⟩
    · rintro ⟨c, hs, hm⟩
      exact ⟨_, (hdel _ c c).mpr ⟨rfl, rfl, hs, hm⟩, rfl⟩
  · rw [Bool.eq_iff_iff, supplies_iff, List.any_eq_true]
    constructor
    · rintro ⟨⟨handle, call⟩, hmem, hc⟩
      cases call <;> simp [FleetCall.is_patrol] at hc
      rename_i consider
      obtain ⟨-, hs, hm⟩ := (hpat handle consider).mp hmem
      exact ⟨consider, hs, hm⟩
    · rintro ⟨c, hs, hm⟩
      exact ⟨_, (hpat _ c).mpr ⟨rfl, hs, hm⟩, rfl⟩
  · rw [Bool.eq_iff_iff, supplies_iff, List.any_eq_true]
    constructor
    · rintro ⟨⟨handle, call⟩, hmem, hc⟩
      cases call <;> simp [FleetCall.is_cleaning] at hc
      rename_i consider
      obtain ⟨-, hs, hm⟩ := (hcl handle consider).mp hmem
      exact ⟨consider, hs, hm⟩
    · rintro ⟨c, hs, hm⟩
      exact ⟨_, (hcl _ c).mpr ⟨rfl, hs, hm⟩, rfl⟩

/-- C8 as amended, at a configuration whose table holds a predicate under
`clean` and a null entry under `patrol`: only the cleaning setter is applied. -/
theorem task_setters_follow_table_witness :
    (sample_config (some graph_without_docks) (some sample_traits)
        [("clean", some 7), ("patrol", none)]).graph = some graph_without_docks ∧
      (sample_config (some graph_without_docks) (some sample_traits)
        [("clean", some 7), ("patrol", none)]).vehicle_traits = some sample_traits ∧
      (find_duplicate_docks graph_without_docks).duplicate_docks = [] ∧
      ((sample_adapter.add_easy_fleet
          (sample_config (some graph_without_docks) (some sample_traits)
            [("clean", some 7), ("patrol", none)]) true).2.fleet_calls_since
          sample_adapter).any (fun entry => entry.2.is_cleaning) =
        supplies [("clean", some 7), ("patrol", none)] "clean" :=
  ⟨rfl, rfl, by decide,
    (task_setters_follow_table sample_adapter
      (sample_config (some graph_without_docks) (some sample_traits)
        [("clean", some 7), ("patrol", none)]) true graph_without_docks sample_traits rfl rfl
      (by decide)).2.2.2.1⟩

/-- C8 as stated fails: a non-null predicate supplied under the name
`cleaning` applies no setter (the name the code compares with is `clean`), so
it is not true that `consider_cleaning_requests` is applied exactly when the
table supplies a non-null predicate under `cleaning`. -/
theorem cleaning_name_not_recognised :
    supplies [("cleaning", some 7)] "cleaning" = true ∧
      ((sample_adapter.add_easy_fleet
          (sample_config (some graph_without_docks) (some sample_traits)
            [("cleaning", some 7)]) true).2.fleet_calls_since sample_adapter).any
          (fun entry => entry.2.is_cleaning) = false ∧
      ¬ ∀ (adapter : Adapter) (config : FleetConfiguration) (planner_params_ok : Bool)
          (graph : Graph) (traits : VehicleTraits),
        config.graph = some graph → config.vehicle_traits = some traits →
        (find_duplicate_docks graph).duplicate_docks = [] →
        ((adapter.add_easy_fleet config planner_params_ok).2.fleet_calls_since adapter).any
            (fun entry => entry.2.is_cleaning) =
          supplies config.task_consideration "cleaning" := by
  refine ⟨by decide, by decide, ?_⟩
  intro h
  have := h sample_adapter
    (sample_config (some graph_without_docks) (some sample_traits) [("cleaning", some 7)])
    true graph_without_docks sample_traits rfl rfl (by decide)
  revert this
  decide

/-! ## Bootstrap -/

theorem Adapter.Implementation.poll_loop_cases (env : BootEnv) (stop_time : Time)
    (polls : List Poll) :
    ∀ k : Nat,
      ((Adapter.Implementation.poll_loop env stop_time polls k).negotiations = [] ∧
        ∀ pimpl, (Adapter.Implementation.poll_loop env stop_time polls k).result ≠
          .returned (some pimpl)) ∨
      ∃ i p, k ≤ i ∧ polls[i - k]? = some p ∧ p.ok = true ∧ p.now < stop_time ∧
        p.writer_ready = true ∧ p.mirror_ready = true ∧
        (Adapter.Implementation.poll_loop env stop_time polls k).negotiations =
          [(i, Adapter.Implementation.negotiation_for env p.mirror_manager)] ∧
        (Adapter.Implementation.poll_loop env stop_time polls k).result =
          .returned (some (Adapter.Implementation.construct env
            (Adapter.Implementation.negotiation_for env p.mirror_manager) p.mirror_manager)) ∧
        (Adapter.Implementation.poll_loop env stop_time polls k).spins = i + 1 := by
  induction polls with
  | nil =>
    intro k
    left
    simp [Adapter.Implementation.poll_loop]
  | cons p rest ih =>
    intro k
    unfold Adapter.Implementation.poll_loop
    by_cases hc : (p.ok && decide (p.now < stop_time)) = true
    · simp only [hc, if_true, Bool.true_and]
      by_cases hr : (p.writer_ready && p.mirror_ready) = true
      · simp only [hr, if_true]
        right
        simp only [Bool.and_eq_true, decide_eq_true_eq] at hc hr
        exact ⟨k, p, le_refl k, by simp, hc.1, hc.2, hr.1, hr.2, rfl, rfl, rfl⟩
      · simp only [hr, if_false, Bool.false_eq_true]
        rcases ih (k + 1) with h | ⟨i, q, hki, hq, h⟩
        · exact Or.inl h
        · right
          refine ⟨i, q, by omega, ?_, h⟩
          have : i - k = (i - (k + 1)) + 1 := by omega
          rw [this]
          simpa using hq
    · simp only [hc, if_false, Bool.false_eq_true]
      left
      simp

/-- C5. For every sequence of poll observations and every timeout, in a
bootstrap run at most one negotiation coordinator is constructed; one is
constructed only in a loop evaluation in which the loop body was entered and
`writer->ready()` and the readiness of the mirror future were both observed
true, from the mirror manager obtained there; every non-null result of
`Adapter::make` holds the coordinator, writer and mirror of such an evaluation;
and a coordinator is constructed only in a run that returns an adapter. -/
theorem coordinator_only_when_both_ready (discovery_timeout : Option Duration)
    (env : BootEnv) :
    (Adapter.make discovery_timeout env).negotiations.length ≤ 1 ∧
      (∀ i negotiation, (i, negotiation) ∈ (Adapter.make discovery_timeout env).negotiations →
        ∃ p, env.polls[i]? = some p ∧ p.ok = true ∧
          p.now < Adapter.Implementation.stop_time discovery_timeout env ∧
          p.writer_ready = true ∧ p.mirror_ready = true ∧
          negotiation = Adapter.Implementation.negotiation_for env p.mirror_manager) ∧
      (∀ adapter, (Adapter.make discovery_timeout env).result = .returned (some adapter) →
        ∃ i p, env.polls[i]? = some p ∧ p.writer_ready = true ∧ p.mirror_ready = true ∧
          (Adapter.make discovery_timeout env).negotiations =
            [(i, adapter.pimpl.negotiation)] ∧
          adapter.pimpl.negotiation =
            Adapter.Implementation.negotiation_for env p.mirror_manager ∧
          adapter.pimpl.mirror_manager = p.mirror_manager ∧
          adapter.pimpl.schedule_writer = ParticipantFactoryRos2 env.writer) ∧
      ((Adapter.make discovery_timeout env).negotiations ≠ [] →
        ∃ adapter, (Adapter.make discovery_timeout env).result = .returned (some adapter)) := by
  unfold Adapter.make Adapter.Implementation.make
  cases hok : env.ok_at_entry with
  | false => simp
  | true =>
    simp only [Bool.not_true, Bool.false_eq_true, if_false]
    rcases Adapter.Implementation.poll_loop_cases env
      (Adapter.Implementation.stop_time discovery_timeout env) env.polls 0 with
      ⟨hn, hr⟩ | ⟨i, p, -, hp, hpok, hpnow, hw, hm, hn, hr, -⟩
    · rw [hn]
      refine ⟨by simp, by simp, ?_, by simp⟩
      intro adapter h
      exfalso
      revert h
      cases hres : (Adapter.Implementation.poll_loop env
        (Adapter.Implementation.stop_time discovery_timeout env) env.polls 0).result with
      | threw => simp
      | unfinished => simp
      | returned v =>
        cases v with
        | none => simp
        | some pimpl => exact absurd hres (hr pimpl)
    · rw [hn, hr]
      simp only [Nat.sub_zero] at hp
      refine ⟨by simp, ?_, ?_, ?_⟩
      · intro j n hj
        simp only [List.mem_singleton, Prod.mk.injEq] at hj
        obtain ⟨rfl, rfl⟩ := hj
        exact ⟨p, hp, hpok, hpnow, hw, hm, rfl⟩
      · intro adapter h
        simp only [Outcome.returned.injEq, Option.some.injEq] at h
        subst h
        exact ⟨i, p, hp, hw, hm, rfl, rfl, rfl, rfl⟩
      · intro _
        exact ⟨_, rfl⟩

/-- C10, as amended. If the messaging context is active at entry and the
discovery timeout given to bootstrap is zero or negative, then, the clock being
monotonic (the first reading in the loop condition is not before the reading
`stop_time` was computed from), `Adapter::Implementation::make` enters the
loop body not once and returns null, and `Adapter::make` returns null, also
when the writer is ready and the mirror future has completed; no negotiation
coordinator is constructed. -/
theorem nonpositive_timeout_never_polls (timeout : Duration) (env : BootEnv) (p : Poll)
    (rest : List Poll) (hok : env.ok_at_entry = true) (ht : timeout ≤ 0)
    (hp : env.polls = p :: rest) (hmono : env.start ≤ p.now) :
    (Adapter.Implementation.make (some timeout) env).result = .returned none ∧
      (Adapter.Implementation.make (some timeout) env).spins = 0 ∧
      (Adapter.make (some timeout) env).result = .returned none ∧
      (Adapter.make (some timeout) env).negotiations = [] := by
  have hstop : ¬ p.now < Adapter.Implementation.stop_time (some timeout) env := by
    simp only [Adapter.Implementation.stop_time, not_lt]
    exact le_trans (add_le_of_nonpos_right ht) hmono
  have hc : (p.ok && decide (p.now < Adapter.Implementation.stop_time (some timeout) env)) =
      false := by
    simp [hstop]
  simp [Adapter.make, Adapter.Implementation.make, hok, hp, Adapter.Implementation.poll_loop,
    hc]

/-- C10 as amended, at timeout `0` with writer and mirror already ready at the
first evaluation. -/
theorem nonpositive_timeout_never_polls_witness :
    (sample_env true [sample_poll 100 true true]).ok_at_entry = true ∧ (0 : Duration) ≤ 0 ∧
      (sample_env true [sample_poll 100 true true]).polls = [sample_poll 100 true true] ∧
      (sample_env true [sample_poll 100 true true]).start ≤ (sample_poll 100 true true).now ∧
      (Adapter.make (some 0) (sample_env true [sample_poll 100 true true])).result =
        .returned none :=
  ⟨rfl, le_refl 0, rfl, by decide,
    (nonpositive_timeout_never_polls 0 (sample_env true [sample_poll 100 true true])
      (sample_poll 100 true true) [] rfl (le_refl 0) rfl (by decide)).2.2.1⟩

/-- C10 as stated fails: with a zero timeout and a messaging context that is
not active at entry, `Adapter::Implementation::make` throws instead of
returning null, and so does `Adapter::make`. -/
theorem nonpositive_timeout_inactive_context_throws :
    (Adapter.Implementation.make (some 0) (sample_env false [sample_poll 100 true true])).result
        = .threw ∧
      (Adapter.make (some 0) (sample_env false [sample_poll 100 true true])).result = .threw ∧
      ¬ ∀ (timeout : Duration) (env : BootEnv) (p : Poll) (rest : List Poll),
        timeout ≤ 0 → env.polls = p :: rest → env.start ≤ p.now →
        (Adapter.Implementation.make (some timeout) env).result = .returned none ∧
          (Adapter.Implementation.make (some timeout) env).spins = 0 ∧
          (Adapter.make (some timeout) env).result = .returned none := by
  refine ⟨by decide, by decide, ?_⟩
  intro h
  have := (h 0 (sample_env false [sample_poll 100 true true]) (sample_poll 100 true true) []
    (le_refl 0) rfl (by decide)).1
  revert this
  decide

/-- C5, at a run in which the writer is ready at the first evaluation and both
writer and mirror at the second: the one coordinator is constructed at the
second evaluation. -/
theorem coordinator_only_when_both_ready_witness :
    (Adapter.make (some 50)
        (sample_env true [sample_poll 110 true false, sample_poll 120 true true])).negotiations
        = [(1, ⟨2, 5, ⟨1⟩⟩)] ∧
      ∃ p, (sample_env true [sample_poll 110 true false, sample_poll 120 true true]).polls[1]?
          = some p ∧ p.ok = true ∧
        p.now < Adapter.Implementation.stop_time (some 50)
          (sample_env true [sample_poll 110 true false, sample_poll 120 true true]) ∧
        p.writer_ready = true ∧ p.mirror_ready = true ∧
        (⟨2, 5, ⟨1⟩⟩ : Negotiation) = Adapter.Implementation.negotiation_for
          (sample_env true [sample_poll 110 true false, sample_poll 120 true true])
          p.mirror_manager :=
  ⟨by decide,
    (coordinator_only_when_both_ready (some 50)
      (sample_env true [sample_poll 110 true false, sample_poll 120 true true])).2.1 1
      ⟨2, 5, ⟨1⟩⟩ (by decide)⟩

/-! ## Lifecycle -/

theorem WaitOutcome.later_eq_returned (outcome : WaitOutcome) (k : Nat) :
    outcome.later = .returned k ↔ ∃ j, k = j + 1 ∧ outcome = .returned j := by
  cases outcome with
  | blocked => simp [WaitOutcome.later]
  | returned m =>
    simp only [WaitOutcome.later, WaitOutcome.returned.injEq]
    constructor
    · intro h; exact ⟨m, h.symm, rfl⟩
    · rintro ⟨j, h1, h2⟩; omega

theorem WaitOutcome.later_eq_blocked (outcome : WaitOutcome) :
    outcome.later = .blocked ↔ outcome = .blocked := by
  cases outcome <;> simp [WaitOutcome.later]

theorem cv_wait_until_stops_shift {α : Type} (abs_time : Time) (pred : α → Bool) (entry : α)
    (wakeup : Time × α) (rest : List (Time × α)) (h : ¬ abs_time ≤ wakeup.1) (k : Nat) :
    cv_wait_until_stops abs_time pred entry (wakeup :: rest) (k + 1) =
      cv_wait_until_stops abs_time pred wakeup.2 rest k := by
  cases k with
  | zero => simp [cv_wait_until_stops, h]
  | succ k => simp [cv_wait_until_stops]

theorem cv_wait_until_returned {α : Type} (abs_time : Time) (pred : α → Bool)
    (wakeups : List (Time × α)) :
    ∀ (entry : α) (k : Nat),
      cv_wait_until abs_time pred entry wakeups = .returned k ↔
        cv_wait_until_stops abs_time pred entry wakeups k = true ∧
          ∀ j < k, cv_wait_until_stops abs_time pred entry wakeups j = false := by
  induction wakeups with
  | nil =>
    intro entry k
    cases hp : pred entry with
    | true =>
      simp only [cv_wait_until, hp, if_true, WaitOutcome.returned.injEq]
      constructor
      · intro h; subst h; exact ⟨hp, by intro j hj; omega⟩
      · rintro ⟨-, h⟩
        by_contra hk
        have := h 0 (by omega)
        simp [cv_wait_until_stops, hp] at this
    | false =>
      simp only [cv_wait_until, hp, if_false, Bool.false_eq_true]
      constructor
      · intro h; cases h
      · rintro ⟨h, -⟩
        cases k <;> simp [cv_wait_until_stops, hp] at h
  | cons wakeup rest ih =>
    intro entry k
    cases hp : pred entry with
    | true =>
      simp only [cv_wait_until, hp, if_true, WaitOutcome.returned.injEq]
      constructor
      · intro h; subst h; exact ⟨hp, by intro j hj; omega⟩
      · rintro ⟨-, h⟩
        by_contra hk
        have := h 0 (by omega)
        simp [cv_wait_until_stops, hp] at this
    | false =>
      by_cases ht : abs_time ≤ wakeup.1
      · simp only [cv_wait_until, hp, ht, if_true, if_false, Bool.false_eq_true,
          WaitOutcome.returned.injEq]
        constructor
        · intro h
          subst h
          refine ⟨by simp [cv_wait_until_stops, ht], ?_⟩
          intro j hj
          have : j = 0 := by omega
          subst this
          simpa [cv_wait_until_stops] using hp
        · rintro ⟨hk, h⟩
          match k, hk, h with
          | 0, hk, _ => simp [cv_wait_until_stops, hp] at hk
          | 1, _, _ => rfl
          | k + 2, _, h =>
            have := h 1 (by omega)
            simp [cv_wait_until_stops, ht] at this
      · simp only [cv_wait_until, hp, ht, if_false, Bool.false_eq_true,
          WaitOutcome.later_eq_returned]
        constructor
        · rintro ⟨j, rfl, hj⟩
          obtain ⟨h1, h2⟩ := (ih wakeup.2 j).mp hj
          refine ⟨by rw [cv_wait_until_stops_shift _ _ _ _ _ ht]; exact h1, ?_⟩
          intro i hi
          cases i with
          | zero => simpa [cv_wait_until_stops] using hp
          | succ i =>
            rw [cv_wait_until_stops_shift _ _ _ _ _ ht]
            exact h2 i (by omega)
        · rintro ⟨hk, h⟩
          match k, hk, h with
          | 0, hk, _ => simp [cv_wait_until_stops, hp] at hk
          | j + 1, hk, h =>
            refine ⟨j, rfl, (ih wakeup.2 j).mpr ⟨?_, ?_⟩⟩
            · rw [← cv_wait_until_stops_shift _ _ entry _ _ ht]; exact hk
            · intro i hi
              rw [← cv_wait_until_stops_shift _ _ entry _ _ ht]
              exact h (i + 1) (by omega)

theorem cv_wait_until_blocked {α : Type} (abs_time : Time) (pred : α → Bool)
    (wakeups : List (Time × α)) :
    ∀ entry : α,
      cv_wait_until abs_time pred entry wakeups = .blocked ↔
        ∀ j ≤ wakeups.length, cv_wait_until_stops abs_time pred entry wakeups j = false := by
  induction wakeups with
  | nil =>
    intro entry
    cases hp : pred entry with
    | true =>
      simp only [cv_wait_until, hp, if_true, List.length_nil, Nat.le_zero_eq, forall_eq,
        cv_wait_until_stops]
      simp
    | false =>
      simp [cv_wait_until, hp, cv_wait_until_stops]
  | cons wakeup rest ih =>
    intro entry
    cases hp : pred entry with
    | true =>
      simp only [cv_wait_until, hp, if_true]
      constructor
      · intro h; cases h
      · intro h
        have := h 0 (by simp)
        simp [cv_wait_until_stops, hp] at this
    | false =>
      by_cases ht : abs_time ≤ wakeup.1
      · simp only [cv_wait_until, hp, ht, if_true, if_false, Bool.false_eq_true]
        constructor
        · intro h; cases h
        · intro h
          have := h 1 (by simp)
          simp [cv_wait_until_stops, ht] at this
      · simp only [cv_wait_until, hp, ht, if_false, Bool.false_eq_true,
          WaitOutcome.later_eq_blocked, ih, List.length_cons]
        constructor
        · intro h j hj
          cases j with
          | zero => simpa [cv_wait_until_stops] using hp
          | succ j =>
            rw [cv_wait_until_stops_shift _ _ _ _ _ ht]
            exact h j (by omega)
        · intro h j hj
          rw [← cv_wait_until_stops_shift _ _ entry _ _ ht]
          exact h (j + 1) (by omega)

theorem cv_wait_until_returns_by {α : Type} (abs_time : Time) (pred : α → Bool) (entry : α)
    (wakeups : List (Time × α)) (i : Nat) (hi : i ≤ wakeups.length)
    (h : cv_wait_until_stops abs_time pred entry wakeups i = true) :
    ∃ k, k ≤ i ∧ cv_wait_until abs_time pred entry wakeups = .returned k := by
  cases hout : cv_wait_until abs_time pred entry wakeups with
  | blocked =>
    have := (cv_wait_until_blocked abs_time pred wakeups entry).mp hout i hi
    rw [h] at this
    cases this
  | returned k =>
    refine ⟨k, ?_, rfl⟩
    by_contra hk
    have := ((cv_wait_until_returned abs_time pred wakeups entry k).mp hout).2 i (by omega)
    rw [h] at this
    cases this

theorem observation_at_cons {α : Type} (entry next : α) (rest : List α) (k : Nat) :
    observation_at entry (next :: rest) (k + 1) = observation_at next rest k := by
  cases k <;> simp [observation_at]

theorem Adapter.wait_returned (wakeups : List Bool) :
    ∀ (entry : Bool) (k : Nat),
      Adapter.wait entry wakeups = .returned k ↔
        observation_at entry wakeups k = some false ∧
          ∀ j < k, observation_at entry wakeups j = some true := by
  induction wakeups with
  | nil =>
    intro entry k
    cases entry with
    | false =>
      simp only [Adapter.wait, cv_wait, Bool.not_false, if_true, WaitOutcome.returned.injEq]
      constructor
      · intro h; subst h; exact ⟨rfl, by intro j hj; omega⟩
      · rintro ⟨-, h⟩
        by_contra hk
        have := h 0 (by omega)
        simp [observation_at] at this
    | true =>
      simp only [Adapter.wait, cv_wait, Bool.not_true, Bool.false_eq_true, if_false]
      constructor
      · intro h; cases h
      · rintro ⟨h, -⟩
        cases k <;> simp [observation_at] at h
  | cons next rest ih =>
    intro entry k
    cases entry with
    | false =>
      simp only [Adapter.wait, cv_wait, Bool.not_false, if_true, WaitOutcome.returned.injEq]
      constructor
      · intro h; subst h; exact ⟨rfl, by intro j hj; omega⟩
      · rintro ⟨-, h⟩
        by_contra hk
        have := h 0 (by omega)
        simp [observation_at] at this
    | true =>
      have hw : Adapter.wait true (next :: rest) = (Adapter.wait next rest).later := by
        simp [Adapter.wait, cv_wait]
      rw [hw, WaitOutcome.later_eq_returned]
      constructor
      · rintro ⟨j, rfl, hj⟩
        obtain ⟨h1, h2⟩ := (ih next j).mp hj
        refine ⟨by rw [observation_at_cons]; exact h1, ?_⟩
        intro i hi
        cases i with
        | zero => rfl
        | succ i => rw [observation_at_cons]; exact h2 i (by omega)
      · rintro ⟨hk, h⟩
        match k, hk, h with
        | 0, hk, _ => simp [observation_at] at hk
        | j + 1, hk, h =>
          refine ⟨j, rfl, (ih next j).mpr ⟨?_, ?_⟩⟩
          · rw [← observation_at_cons true]; exact hk
          · intro i hi
            rw [← observation_at_cons true]
            exact h (i + 1) (by omega)

theorem wrap_int64_of_is_int64 (x : Int) (h : is_int64 x) : wrap_int64 x = x := by
  obtain ⟨h1, h2⟩ := h
  unfold wrap_int64
  rw [Int.emod_eq_of_lt (by linarith) (by linarith)]
  ring

/-- C9, as amended. `Adapter::wait_for(max_wait)`, with deadline
`call_time + max_wait` whenever that sum is a signed 64-bit count (the machine
addition does not overflow), and for every sequence of wake-ups of the
condition variable (the predicate being evaluated once on entry and once after
each wake-up): it returns exactly at the first point at which either the flag
is seen false with the clock before the deadline, or the inner wait has
returned with the deadline reached; so it has returned by the first wake-up
before the deadline at which the flag is false (at once when that holds on
entry), it has returned by the first wake-up at or past the deadline, and when
it returns at a point where the flag is seen still true, the deadline has been
reached. `Adapter::wait()` returns exactly at the first point at which the flag
is seen false. -/
theorem wait_for_returns_at_flag_or_deadline (max_wait : Duration) (call_time : Time)
    (entry : Observation) (wakeups : List (Time × Observation))
    (hsum : is_int64 (call_time + max_wait)) :
    Adapter.wait_until_time max_wait call_time = call_time + max_wait ∧
      (∀ k, Adapter.wait_for max_wait call_time entry wakeups = .returned k ↔
        Adapter.wait_for_stops max_wait call_time entry wakeups k = true ∧
          ∀ j < k, Adapter.wait_for_stops max_wait call_time entry wakeups j = false) ∧
      (Adapter.wait_for max_wait call_time entry wakeups = .blocked ↔
        ∀ j ≤ wakeups.length,
          Adapter.wait_for_stops max_wait call_time entry wakeups j = false) ∧
      (entry.still_spinning = false → entry.now < call_time + max_wait →
        Adapter.wait_for max_wait call_time entry wakeups = .returned 0) ∧
      (∀ i wakeup, wakeups[i]? = some wakeup → wakeup.2.still_spinning = false →
        wakeup.2.now < call_time + max_wait →
        ∃ k, k ≤ i + 1 ∧ Adapter.wait_for max_wait call_time entry wakeups = .returned k) ∧
      (∀ i wakeup, wakeups[i]? = some wakeup → call_time + max_wait ≤ wakeup.1 →
        ∃ k, k ≤ i + 1 ∧ Adapter.wait_for max_wait call_time entry wakeups = .returned k) ∧
      (Adapter.wait_for max_wait call_time entry wakeups = .returned 0 →
        entry.still_spinning = false ∧ entry.now < call_time + max_wait) ∧
      (∀ k, Adapter.wait_for max_wait call_time entry wakeups = .returned (k + 1) →
        ∃ wakeup, wakeups[k]? = some wakeup ∧
          (wakeup.2.still_spinning = true → call_time + max_wait ≤ wakeup.1)) ∧
      (∀ (flag : Bool) (flags : List Bool) (k : Nat),
        Adapter.wait flag flags = .returned k ↔
          observation_at flag flags k = some false ∧
            ∀ j < k, observation_at flag flags j = some true) := by
  have hd : Adapter.wait_until_time max_wait call_time = call_time + max_wait :=
    wrap_int64_of_is_int64 _ hsum
  have hret := cv_wait_until_returned (Adapter.wait_until_time max_wait call_time)
    (Adapter.wait_for_pred (Adapter.wait_until_time max_wait call_time)) wakeups entry
  have hby := cv_wait_until_returns_by (Adapter.wait_until_time max_wait call_time)
    (Adapter.wait_for_pred (Adapter.wait_until_time max_wait call_time)) entry wakeups
  refine ⟨hd, hret, cv_wait_until_blocked _ _ wakeups entry, ?_, ?_, ?_, ?_, ?_, ?_⟩
  · intro hs hn
    apply (hret 0).mpr
    refine ⟨?_, by intro j hj; omega⟩
    simp [cv_wait_until_stops, Adapter.wait_for_pred, hs, hn, hd]
  · intro i wakeup hw hs hn
    have hi : i < wakeups.length := by
      by_contra h
      rw [List.getElem?_eq_none (by omega)] at hw
      cases hw
    apply hby (i + 1) (by omega)
    simp [cv_wait_until_stops, hw, Adapter.wait_for_pred, hs, hn, hd]
  · intro i wakeup hw hdl
    have hi : i < wakeups.length := by
      by_contra h
      rw [List.getElem?_eq_none (by omega)] at hw
      cases hw
    apply hby (i + 1) (by omega)
    simp [cv_wait_until_stops, hw, hdl, hd]
  · intro h
    have := ((hret 0).mp h).1
    simpa [cv_wait_until_stops, Adapter.wait_for_pred, hd] using this
  · intro k h
    have hk := ((hret (k + 1)).mp h).1
    simp only [cv_wait_until_stops] at hk
    cases hw : wakeups[k]? with
    | none => rw [hw] at hk; cases hk
    | some wakeup =>
      refine ⟨wakeup, rfl, ?_⟩
      intro hs
      rw [hw] at hk
      simpa [Adapter.wait_for_pred, hs, hd] using hk
  · intro flag flags k
    exact Adapter.wait_returned flags flag k

/-- C9 as amended, at a call at clock reading `100` with `max_wait = 50`: the
flag is still true on entry and at the first wake-up and false at the second,
before the deadline `150`; `wait_for` returns at the second wake-up. -/
theorem wait_for_returns_at_flag_or_deadline_witness :
    is_int64 (100 + 50) ∧
      Adapter.wait_for 50 100 ⟨true, 100⟩
        [(120, ⟨true, 120⟩), (130, ⟨false, 130⟩), (150, ⟨false, 150⟩)] = .returned 2 :=
  ⟨by unfold is_int64; decide,
    ((wait_for_returns_at_flag_or_deadline 50 100 ⟨true, 100⟩
      [(120, ⟨true, 120⟩), (130, ⟨false, 130⟩), (150, ⟨false, 150⟩)]
      (by unfold is_int64; decide)).2.1 2).mpr ⟨by decide, by decide⟩⟩

/-- C9 as stated fails: called at clock reading `100` with the largest 64-bit
`max_wait`, the machine sum wraps to a deadline in the past; the inner wait
times out at once and `wait_for` returns at clock reading `100` with the flag
still true, long before `call_time + max_wait`. So it is not true that
`wait_for` never returns before `call_time + max_wait` while the flag is still
true. -/
theorem wait_for_returns_at_once_on_overflow :
    is_int64 9223372036854775807 ∧ is_int64 100 ∧
      Adapter.wait_until_time 9223372036854775807 100 = -9223372036854775709 ∧
      Adapter.wait_for 9223372036854775807 100 ⟨true, 100⟩ [(100, ⟨true, 100⟩)] =
        .returned 1 ∧
      ¬ ∀ (max_wait : Duration) (call_time : Time) (entry : Observation)
          (wakeups : List (Time × Observation)) (k : Nat) (wakeup : Time × Observation),
        is_int64 max_wait → is_int64 call_time →
        Adapter.wait_for max_wait call_time entry wakeups = .returned (k + 1) →
        wakeups[k]? = some wakeup → wakeup.2.still_spinning = true →
        call_time + max_wait ≤ wakeup.1 := by
  refine ⟨by unfold is_int64; decide, by unfold is_int64; decide, by decide, by decide, ?_⟩
  intro h
  have := h 9223372036854775807 100 ⟨true, 100⟩ [(100, ⟨true, 100⟩)] 0 (100, ⟨true, 100⟩)
    (by unfold is_int64; decide) (by unfold is_int64; decide) (by decide) rfl rfl
  revert this
  decide

end agv
end rmf_fleet_adapter
